import Mathlib

/-!
Shallow embedding of the Tender-Radar backend core, covering the risk
indicator bank (`app/features/indicators.py`), the scoring engine
(`app/features/engine.py`), the incremental journal orchestrator
(`app/etl/incremental.py`) and the checkpointed backfill loaders
(`app/etl/backfill.py`).

Conventions of the embedding:
* SQL timestamps are rationals measured in days; Python's
  `(b - a).days` on datetimes is the floor of the rational difference,
  and `total_seconds() / 3600` is the difference times 24.
* Nullable SQL columns are `Option` values; SQL aggregates skip `NULL`
  rows exactly as `filterMap` does, and the Python `or 0` fallback on a
  `NULL` aggregate is made explicit in each definition.
* Python's builtin `round` (banker's rounding) is `pyRound1`.
* A table is a list of rows; `SELECT ... WHERE id = x ... .first()` is
  `List.find?`, `ORDER BY c LIMIT n` is a stable insertion sort followed
  by `List.take n` (`NULLS LAST`, PostgreSQL's default ascending order).
-/

set_option maxHeartbeats 1000000
set_option maxRecDepth 100000

/-- Python's builtin `round` to an integer: round half to even. -/
def pyRoundInt (x : ℚ) : ℤ :=
  if x - (⌊x⌋ : ℚ) < 1/2 then ⌊x⌋
  else if 1/2 < x - (⌊x⌋ : ℚ) then ⌊x⌋ + 1
  else if Even ⌊x⌋ then ⌊x⌋ else ⌊x⌋ + 1

/-- Python `round(x, 1)`: one decimal digit, half to even. -/
def pyRound1 (x : ℚ) : ℚ := (pyRoundInt (x * 10) : ℚ) / 10

/-- A JSON-like value stored in an indicator's evidence payload. -/
inductive EvVal where
  | s (v : String)
  | os (v : Option String)
  | q (v : ℚ)
  | oq (v : Option ℚ)
  | i (v : ℤ)
  | oi (v : Option ℤ)
  | b (v : Bool)
  | ls (v : List String)
  | los (v : List (Option String))
deriving DecidableEq

/-- The uniform result shape every indicator returns:
`{flag: bool, value: float|None, evidence: dict}`. -/
structure IndResult where
  flag : Bool
  value : Option ℚ
  evidence : List (String × EvVal)
deriving DecidableEq

/-- Columns of `trd_buy` read by the indicator bank. -/
structure TrdBuyRow where
  id : ℤ
  start_date : Option ℚ := none
  end_date : Option ℚ := none
  last_update_at : Option ℚ := none
  is_deleted : Bool := false
deriving DecidableEq

/-- Columns of `lots` read by the indicator bank. -/
structure LotRow where
  id : ℤ
  trd_buy_id : Option ℤ := none
  amount : Option ℚ := none
  customer_bin : Option String := none
  dumping_flag : Bool := false
  last_update_at : Option ℚ := none
  is_deleted : Bool := false
deriving DecidableEq

/-- Columns of `trd_app` read by the indicator bank (the table has no
soft-delete column). -/
structure TrdAppRow where
  id : ℤ
  buy_id : Option ℤ := none
  supplier_biin : Option String := none
deriving DecidableEq

/-- Columns of `contract` read by the indicator bank. -/
structure ContractRow where
  id : ℤ
  trd_buy_id : Option ℤ := none
  customer_bin : Option String := none
  supplier_biin : Option String := none
  contract_sum_wnds : Option ℚ := none
  sign_date : Option ℚ := none
  plan_exec_date : Option ℚ := none
  parent_id : Option ℤ := none
  root_id : Option ℤ := none
  last_update_at : Option ℚ := none
  is_deleted : Bool := false
deriving DecidableEq

/-- Columns of `subject` read by the indicator bank. -/
structure SubjectRow where
  id : ℤ
  bin : Option String := none
  iin : Option String := none
  name_ru : Option String := none
  regdate : Option ℚ := none
  crdate : Option ℚ := none
  phone : Option String := none
  email : Option String := none
  last_update_at : Option ℚ := none
  is_deleted : Bool := false
deriving DecidableEq

/-- Columns of `rnu` read by the indicator bank. -/
structure RnuRow where
  id : ℤ
  supplier_biin : Option String := none
  reason : Option String := none
  start_date : Option ℚ := none
  system_id : Option ℤ := none
  is_active : Bool := true
deriving DecidableEq

/-- Columns of `treasury_pay` read by the indicator bank. -/
structure TreasuryPayRow where
  id : ℤ
  contract_id : Option ℤ := none
  pay_amount : Option ℚ := none
deriving DecidableEq

/-- A row of the `acts` table, reached only through raw SQL in
`check_payment_without_act`. -/
structure ActRow where
  contract_id : Option ℤ := none
deriving DecidableEq

/-- The normalized relational store the indicator bank queries. -/
structure Store where
  trd_buys : List TrdBuyRow := []
  lots : List LotRow := []
  trd_apps : List TrdAppRow := []
  contracts : List ContractRow := []
  subjects : List SubjectRow := []
  rnus : List RnuRow := []
  treasury_pays : List TreasuryPayRow := []
  acts : List ActRow := []
deriving DecidableEq

/-- First-occurrence deduplication, the effect of SQL `DISTINCT` and of
Python's `dict.fromkeys` on an ordered sequence. -/
def uniqList {α : Type} [DecidableEq α] (l : List α) : List α :=
  l.foldl (fun acc a => if a ∈ acc then acc else acc ++ [a]) []

/-- Ascending order on a nullable sort key, `NULLS LAST` as in
PostgreSQL's default `ORDER BY`. -/
def dateLe : Option ℚ → Option ℚ → Bool
  | _, none => true
  | none, some _ => false
  | some a, some b => decide (a ≤ b)

/-- Stable insertion of a contract into a list sorted by `sign_date`. -/
def insertBySign (c : ContractRow) : List ContractRow → List ContractRow
  | [] => [c]
  | d :: ds => if dateLe c.sign_date d.sign_date then c :: d :: ds else d :: insertBySign c ds

/-- Stable sort of contracts by `sign_date` ascending (`ORDER BY sign_date`). -/
def sortBySign : List ContractRow → List ContractRow
  | [] => []
  | c :: cs => insertBySign c (sortBySign cs)

/-- First element attaining the strictly largest measure, the model of
`ORDER BY cnt DESC LIMIT 1`. -/
def argmaxBy {α : Type} (f : α → ℕ) (l : List α) : Option α :=
  l.foldl (fun acc a =>
    match acc with
    | none => some a
    | some b => if f b < f a then some a else some b) none

-- ─── indicators.py ──────────────────────────────────────────────────────────

/-- Indicator 1, `check_short_deadline`: bid window shorter than 3 days. -/
def check_short_deadline (db : Store) (trd_buy_id : ℤ) : IndResult :=
  match db.trd_buys.find? (fun r => decide (r.id = trd_buy_id)) with
  | none => ⟨false, none, []⟩
  | some row =>
    match row.start_date, row.end_date with
    | some sd, some ed =>
      let delta_days : ℤ := ⌊ed - sd⌋
      ⟨decide (delta_days < 3), some ((delta_days : ℚ)),
       [("start_date", .q sd), ("end_date", .q ed),
        ("deadline_days", .i delta_days), ("threshold", .i 3)]⟩
    | _, _ => ⟨false, none, []⟩

/-- Indicator 2, `check_few_bids`: 1 or 2 applications on the tender. -/
def check_few_bids (db : Store) (trd_buy_id : ℤ) : IndResult :=
  let bid_count := (db.trd_apps.filter (fun a => decide (a.buy_id = some trd_buy_id))).length
  ⟨decide (0 < bid_count ∧ bid_count ≤ 2), some ((bid_count : ℚ)),
   [("bid_count", .i (bid_count : ℤ)), ("threshold", .i 2)]⟩

/-- The non-deleted lots of a tender, the population `check_lot_splitting`
aggregates over. -/
def splitLots (db : Store) (trd_buy_id : ℤ) : List LotRow :=
  db.lots.filter (fun l => decide (l.trd_buy_id = some trd_buy_id ∧ l.is_deleted = false))

/-- The non-null amounts of those lots (SQL `SUM`/`AVG` skip `NULL`). -/
def splitAmounts (db : Store) (trd_buy_id : ℤ) : List ℚ :=
  (splitLots db trd_buy_id).filterMap (fun l => l.amount)

/-- `float(row[1] or 0)`: the lot sum, `0` when every amount is `NULL`. -/
def splitTotal (db : Store) (trd_buy_id : ℤ) : ℚ := (splitAmounts db trd_buy_id).sum

/-- `float(row[2] or 0)`: the average over non-null amounts, `0` when
there are none. -/
def splitAvg (db : Store) (trd_buy_id : ℤ) : ℚ :=
  if (splitAmounts db trd_buy_id).length = 0 then 0
  else (splitAmounts db trd_buy_id).sum / ((splitAmounts db trd_buy_id).length : ℚ)

/-- Indicator 3, `check_lot_splitting`: more than 5 non-deleted lots,
average lot amount below 5,000,000, total above 10,000,000. -/
def check_lot_splitting (db : Store) (trd_buy_id : ℤ) : IndResult :=
  ⟨decide (5 < (splitLots db trd_buy_id).length ∧ splitAvg db trd_buy_id < 5000000 ∧
      10000000 < splitTotal db trd_buy_id),
   some (((splitLots db trd_buy_id).length : ℚ)),
   [("lot_count", .i ((splitLots db trd_buy_id).length : ℤ)),
    ("total_sum", .q (splitTotal db trd_buy_id)),
    ("avg_lot_amount", .q (splitAvg db trd_buy_id))]⟩

/-- Indicator 4, `check_recurring_winner`: one supplier wins more than
70% of a customer's non-deleted contracts, minimum sample 5. -/
def check_recurring_winner (db : Store) (customer_bin supplier_biin : String) : IndResult :=
  let total := (db.contracts.filter (fun c =>
    decide (c.customer_bin = some customer_bin ∧ c.is_deleted = false))).length
  if total = 0 then ⟨false, some 0, []⟩
  else
    let supplier_count := (db.contracts.filter (fun c =>
      decide (c.customer_bin = some customer_bin ∧ c.supplier_biin = some supplier_biin ∧
        c.is_deleted = false))).length
    let win_rate : ℚ := (supplier_count : ℚ) / (total : ℚ)
    ⟨decide (7/10 < win_rate ∧ 5 ≤ total),
     some (pyRound1 (win_rate * 100)),
     [("customer_bin", .s customer_bin), ("supplier_biin", .s supplier_biin),
      ("supplier_contracts", .i (supplier_count : ℤ)), ("total_contracts", .i (total : ℤ)),
      ("win_rate_pct", .q (pyRound1 (win_rate * 100))), ("threshold_pct", .i 70)]⟩

/-- Indicator 5, `check_supplier_concentration`: one customer holds more
than 80% of a supplier's non-deleted contracts, minimum 5. -/
def check_supplier_concentration (db : Store) (supplier_biin : String) : IndResult :=
  let filtered := db.contracts.filter (fun c =>
    decide (c.supplier_biin = some supplier_biin ∧ c.is_deleted = false))
  let total := filtered.length
  if total < 5 then ⟨false, some 0, []⟩
  else
    let groups := uniqList (filtered.map (fun c => c.customer_bin))
    match argmaxBy (fun cb => (filtered.filter (fun c => decide (c.customer_bin = cb))).length) groups with
    | none => ⟨false, some 0, []⟩
    | some top =>
      let cnt := (filtered.filter (fun c => decide (c.customer_bin = top))).length
      let concentration : ℚ := (cnt : ℚ) / (total : ℚ)
      ⟨decide (4/5 < concentration), some (pyRound1 (concentration * 100)),
       [("supplier_biin", .s supplier_biin), ("top_customer_bin", .os top),
        ("top_customer_contracts", .i (cnt : ℤ)), ("total_contracts", .i (total : ℤ)),
        ("concentration_pct", .q (pyRound1 (concentration * 100)))]⟩

/-- Indicator 6, `check_addendum_value_increase`: an amendment raised the
root contract's sum by more than 20%.  `not row.root_id` and
`not <sum>` are Python falsiness tests, so both `None` and `0` take
the early return. -/
def check_addendum_value_increase (db : Store) (contract_id : ℤ) : IndResult :=
  match db.contracts.find? (fun c => decide (c.id = contract_id)) with
  | none => ⟨false, none, []⟩
  | some row =>
    match row.root_id with
    | none => ⟨false, none, []⟩
    | some rid =>
      if rid = 0 then ⟨false, none, []⟩
      else
        match db.contracts.find? (fun c => decide (c.id = rid)) with
        | none => ⟨false, none, []⟩
        | some root =>
          match root.contract_sum_wnds, row.contract_sum_wnds with
          | some rsum, some csum =>
            if rsum = 0 ∨ csum = 0 then ⟨false, none, []⟩
            else
              let increase_pct : ℚ := (csum - rsum) / rsum
              ⟨decide (1/5 < increase_pct), some (pyRound1 (increase_pct * 100)),
               [("root_contract_id", .i rid), ("original_sum", .q rsum),
                ("current_sum", .q csum),
                ("increase_pct", .q (pyRound1 (increase_pct * 100))),
                ("threshold_pct", .i 20)]⟩
          | _, _ => ⟨false, none, []⟩

/-- Indicator 7, `check_win_min_then_addendum`: first child amendment
signed within 30 days of the contract. -/
def check_win_min_then_addendum (db : Store) (contract_id : ℤ) : IndResult :=
  match db.contracts.find? (fun c => decide (c.id = contract_id)) with
  | none => ⟨false, none, []⟩
  | some contract =>
    match contract.root_id with
    | none => ⟨false, none, []⟩
    | some rid =>
      if rid = 0 then ⟨false, none, []⟩
      else
        match (sortBySign (db.contracts.filter (fun c => decide (c.parent_id = some contract_id)))).head? with
        | none => ⟨false, none, []⟩
        | some addendum =>
          match addendum.sign_date, contract.sign_date with
          | some ad, some cd =>
            let days_to_addendum : ℤ := ⌊ad - cd⌋
            ⟨decide (days_to_addendum ≤ 30), some ((days_to_addendum : ℚ)),
             [("contract_sign_date", .q cd), ("addendum_sign_date", .q ad),
              ("days_to_addendum", .i days_to_addendum),
              ("addendum_sum", .q (addendum.contract_sum_wnds.getD 0))]⟩
          | _, _ => ⟨false, none, []⟩

/-- Indicator 8, `check_weird_execution_time`: planned execution window
under 7 or over 730 days. -/
def check_weird_execution_time (db : Store) (contract_id : ℤ) : IndResult :=
  match db.contracts.find? (fun c => decide (c.id = contract_id)) with
  | none => ⟨false, none, []⟩
  | some row =>
    match row.sign_date, row.plan_exec_date with
    | some sd, some pd =>
      let exec_days : ℤ := ⌊pd - sd⌋
      ⟨decide (exec_days < 7 ∨ 730 < exec_days), some ((exec_days : ℚ)),
       [("sign_date", .q sd), ("plan_exec_date", .q pd),
        ("execution_days", .i exec_days),
        ("anomaly", .s (if exec_days < 7 then "too_short" else "too_long"))]⟩
    | _, _ => ⟨false, none, []⟩

/-- Indicator 9, `check_rnu_flag`: supplier has an active debarment row. -/
def check_rnu_flag (db : Store) (supplier_biin : String) : IndResult :=
  match (db.rnus.filter (fun r =>
      decide (r.supplier_biin = some supplier_biin ∧ r.is_active = true))).head? with
  | none => ⟨false, some 0, []⟩
  | some rnu =>
    ⟨true, some 1,
     [("rnu_id", .i rnu.id), ("reason", .os rnu.reason),
      ("start_date", .oq rnu.start_date), ("system_id", .oi rnu.system_id)]⟩

/-- Indicator 10, `check_dumping_flag`: the lot's upstream dumping flag. -/
def check_dumping_flag (db : Store) (lot_id : ℤ) : IndResult :=
  match db.lots.find? (fun l => decide (l.id = lot_id)) with
  | none => ⟨false, none, []⟩
  | some row =>
    ⟨row.dumping_flag, some (if row.dumping_flag then 1 else 0),
     [("lot_id", .i lot_id), ("dumping_flag", .b row.dumping_flag),
      ("lot_amount", .q (row.amount.getD 0))]⟩

/-- Indicator 11, `check_new_company_big_contract`: supplier registered
less than 365 days before `now`, contract above 10,000,000. -/
def check_new_company_big_contract (db : Store) (supplier_biin : String)
    (contract_sum : ℚ) (now : ℚ) : IndResult :=
  match (db.subjects.filter (fun s =>
      decide (s.bin = some supplier_biin ∨ s.iin = some supplier_biin))).head? with
  | none => ⟨false, none, []⟩
  | some row =>
    match (match row.regdate with | some d => some d | none => row.crdate) with
    | none => ⟨false, none, []⟩
    | some reg_date =>
      let company_age_days : ℤ := ⌊now - reg_date⌋
      ⟨decide (company_age_days < 365 ∧ 10000000 < contract_sum),
       some ((company_age_days : ℚ)),
       [("supplier_biin", .s supplier_biin), ("company_name", .os row.name_ru),
        ("regdate", .q reg_date), ("company_age_days", .i company_age_days),
        ("contract_sum", .q contract_sum), ("threshold_sum", .i 10000000)]⟩

/-- Indicator 12, `check_payment_without_act`: treasury payments exist
but no completion act rows match the contract. -/
def check_payment_without_act (db : Store) (contract_id : ℤ) : IndResult :=
  let pays := db.treasury_pays.filter (fun p => decide (p.contract_id = some contract_id))
  let pay_count := pays.length
  let pay_sum : ℚ := (pays.filterMap (fun p => p.pay_amount)).sum
  if pay_count = 0 then ⟨false, some 0, []⟩
  else
    let act_count := (db.acts.filter (fun a => decide (a.contract_id = some contract_id))).length
    ⟨decide (0 < pay_count ∧ act_count = 0), some pay_sum,
     [("contract_id", .i contract_id), ("payment_count", .i (pay_count : ℤ)),
      ("total_paid", .q pay_sum), ("act_count", .i (act_count : ℤ))]⟩

/-- Indicator 13, `check_high_win_rate_few_bids`: win rate above 90%
over at least 5 participated tenders, average bids per tender below 3. -/
def check_high_win_rate_few_bids (db : Store) (supplier_biin : String) : IndResult :=
  let supplier_buy_ids := uniqList ((db.trd_apps.filter (fun a =>
    decide (a.supplier_biin = some supplier_biin))).filterMap (fun a => a.buy_id))
  let total_participated := supplier_buy_ids.length
  if total_participated < 5 then ⟨false, some 0, []⟩
  else
    let total_won := (uniqList ((db.contracts.filter (fun c =>
      decide (c.supplier_biin = some supplier_biin ∧ c.is_deleted = false))).filterMap
        (fun c => c.trd_buy_id))).length
    let win_rate : ℚ :=
      if 0 < total_participated then (total_won : ℚ) / (total_participated : ℚ) else 0
    let avg_bids : ℚ :=
      if supplier_buy_ids.length = 0 then 0
      else ((supplier_buy_ids.map (fun b =>
        ((db.trd_apps.filter (fun a => decide (a.buy_id = some b))).length : ℚ))).sum) /
          (supplier_buy_ids.length : ℚ)
    ⟨decide (9/10 < win_rate ∧ avg_bids < 3), some (pyRound1 (win_rate * 100)),
     [("supplier_biin", .s supplier_biin),
      ("total_participated", .i (total_participated : ℤ)),
      ("total_won", .i (total_won : ℤ)),
      ("win_rate_pct", .q (pyRound1 (win_rate * 100))),
      ("avg_bids_per_tender", .q (pyRound1 avg_bids))]⟩

/-- The sample `check_carousel_pattern` walks: the customer's non-deleted
contracts ordered by `sign_date` ascending, truncated by `LIMIT 50` —
i.e. the FIRST 50 chronologically. -/
def carouselSample (db : Store) (customer_bin : String) : List ContractRow :=
  (sortBySign (db.contracts.filter (fun c =>
    decide (c.customer_bin = some customer_bin ∧ c.is_deleted = false)))).take 50

/-- The winner sequence of the carousel sample. -/
def carouselSuppliers (db : Store) (customer_bin : String) : List (Option String) :=
  (carouselSample db customer_bin).map (fun r => r.supplier_biin)

/-- The rotation counter of `check_carousel_pattern`: each time an
already-seen supplier reappears, count one rotation and reset the seen
set to just that supplier. -/
def rotations (seen : List (Option String)) : List (Option String) → ℕ
  | [] => 0
  | s :: rest => if s ∈ seen then rotations [s] rest + 1 else rotations (s :: seen) rest

/-- Indicator 14, `check_carousel_pattern`: at least 2 rotations among
the sampled winner sequence, at least 2 distinct winners, sample of at
least 6. -/
def check_carousel_pattern (db : Store) (customer_bin : String) : IndResult :=
  if (carouselSample db customer_bin).length < 6 then ⟨false, some 0, []⟩
  else if (uniqList (carouselSuppliers db customer_bin)).length < 2 then ⟨false, some 0, []⟩
  else
    ⟨decide (2 ≤ rotations [] (carouselSuppliers db customer_bin) ∧
        2 ≤ (uniqList (carouselSuppliers db customer_bin)).length),
     some ((rotations [] (carouselSuppliers db customer_bin) : ℚ)),
     [("customer_bin", .s customer_bin),
      ("unique_winners", .i ((uniqList (carouselSuppliers db customer_bin)).length : ℤ)),
      ("rotation_count", .i ((rotations [] (carouselSuppliers db customer_bin)) : ℤ)),
      ("winner_sequence", .los ((carouselSuppliers db customer_bin).take 10))]⟩

/-- Indicator 15, `check_last_minute_changes`: last normalization update
within 24 hours before the tender close, strictly positive lead. -/
def check_last_minute_changes (db : Store) (trd_buy_id : ℤ) : IndResult :=
  match db.trd_buys.find? (fun r => decide (r.id = trd_buy_id)) with
  | none => ⟨false, none, []⟩
  | some row =>
    match row.end_date, row.last_update_at with
    | some ed, some lu =>
      let hours_before_deadline : ℚ := (ed - lu) * 24
      ⟨decide (0 < hours_before_deadline ∧ hours_before_deadline < 24),
       some (pyRound1 hours_before_deadline),
       [("end_date", .q ed), ("last_update", .q lu),
        ("hours_before_deadline", .q (pyRound1 hours_before_deadline))]⟩
    | _, _ => ⟨false, none, []⟩

/-- Indicator 16, `check_common_requisites`: at least two distinct
bidders on the tender share a phone or an email in the registry. -/
def check_common_requisites (db : Store) (trd_buy_id : ℤ) : IndResult :=
  let biins := ((uniqList ((db.trd_apps.filter (fun a =>
    decide (a.buy_id = some trd_buy_id))).map (fun a => a.supplier_biin))).filterMap id).filter
      (fun b => decide (b ≠ ""))
  if biins.length < 2 then ⟨false, some 0, []⟩
  else
    let subjects := db.subjects.filter (fun s =>
      (match s.bin with | some b => decide (b ∈ biins) | none => false) ||
      (match s.iin with | some b => decide (b ∈ biins) | none => false))
    let phones := subjects.filterMap (fun s =>
      match s.phone with | some p => if p = "" then none else some p | none => none)
    let emails := subjects.filterMap (fun s =>
      match s.email with | some e => if e = "" then none else some e | none => none)
    let common_phones := (uniqList phones).filter (fun p => decide (1 < phones.count p))
    let common_emails := (uniqList emails).filter (fun e => decide (1 < emails.count e))
    ⟨decide (common_phones ≠ [] ∨ common_emails ≠ []),
     some (((common_phones.length + common_emails.length : ℕ) : ℚ)),
     [("bidder_count", .i (biins.length : ℤ)),
      ("common_phones", .ls common_phones),
      ("common_emails", .ls common_emails)]⟩

-- ─── Claim C3's reading of the carousel sample ──────────────────────────────

/-- The carousel indicator as claim C3 words it: the customer's LAST 50
non-deleted contracts in chronological order, with the same rotation
rule, trigger conditions and rotation-count value. -/
def carousel_claimed (db : Store) (customer_bin : String) : IndResult :=
  let sorted := sortBySign (db.contracts.filter (fun c =>
    decide (c.customer_bin = some customer_bin ∧ c.is_deleted = false)))
  let rows := sorted.drop (sorted.length - 50)
  let suppliers := rows.map (fun r => r.supplier_biin)
  let unique_suppliers := uniqList suppliers
  let rots := rotations [] suppliers
  ⟨decide (2 ≤ rots ∧ 2 ≤ unique_suppliers.length ∧ 6 ≤ rows.length),
   some ((rots : ℚ)), []⟩

-- ─── engine.py: score normalization and level classification ────────────────

/-- `WEIGHTS.get(code, 0)`: the configured weight of an indicator code,
zero when the code is not configured. -/
def weightOf (weights : List (String × ℚ)) (code : String) : ℚ :=
  match weights.find? (fun p => decide (p.1 = code)) with
  | some p => p.2
  | none => 0

/-- `raw_score` of `compute_lot_score`: the sum over the evaluated flags
of the configured weight times 1 for a triggered indicator, 0 otherwise. -/
def raw_score (weights : List (String × ℚ)) (flags : List (String × Bool)) : ℚ :=
  (flags.map (fun f => weightOf weights f.1 * (if f.2 then 1 else 0))).sum

/-- `MAX_SCORE`: the sum of all configured weights.  Modelled from the
spec: `weights.yaml` is not part of the repository snapshot, so the
weight table is an explicit parameter; per the spec it is loaded once at
process start, carries nonnegative weights, and sums to a positive
total. -/
def max_score (weights : List (String × ℚ)) : ℚ := (weights.map (fun p => p.2)).sum

/-- `_normalize_score`: `round(min(100, raw / MAX_SCORE * 100), 1)`. -/
def normalize_score (maxScore raw : ℚ) : ℚ := pyRound1 (min 100 (raw / maxScore * 100))

/-- `_get_level`, with the thresholds (`low_max`, `medium_max`) as
explicit parameters.  Modelled from the spec: the thresholds live in the
absent `weights.yaml`; per the spec `0 ≤ lowMax < mediumMax < 100`. -/
def get_level (lowMax mediumMax score : ℚ) : String :=
  if score ≤ lowMax then "LOW"
  else if score ≤ mediumMax then "MEDIUM"
  else "HIGH"

-- ─── engine.py: persistence of flags and the score row ──────────────────────

/-- A row of the `risk_flags` insert in `compute_lot_score`. -/
structure FlagRowP where
  entity_type : String
  entity_id : String
  indicator_code : String
  flag_bool : Bool
  value_numeric : Option ℚ
  evidence_jsonb : List (String × EvVal)
  computed_at : ℚ
deriving DecidableEq

/-- One entry of the `top_reasons_jsonb` payload. -/
structure TopReason where
  code : String
  weight : ℚ
  evidence : List (String × EvVal)
  description : String
deriving DecidableEq

/-- A row of the `risk_scores` upsert in `compute_lot_score`. -/
structure ScoreRowP where
  entity_type : String
  entity_id : String
  score : ℚ
  level : String
  top_reasons_jsonb : List TopReason
  computed_at : ℚ
deriving DecidableEq

/-- The two scoring-engine tables. -/
structure RiskDB where
  risk_flags : List FlagRowP
  risk_scores : List ScoreRowP
deriving DecidableEq

/-- Does a score row carry the given (entity type, entity id) key? -/
def keyMatch (et eid : String) (s : ScoreRowP) : Bool :=
  decide (s.entity_type = et ∧ s.entity_id = eid)

/-- The `risk_scores` statement of `compute_lot_score`:
`INSERT ... ON CONFLICT (entity_type, entity_id) DO UPDATE` with
`set_` columns score, level, top_reasons_jsonb, computed_at. -/
def upsertScore (tbl : List ScoreRowP) (r : ScoreRowP) : List ScoreRowP :=
  if tbl.any (keyMatch r.entity_type r.entity_id) then
    tbl.map (fun s =>
      if keyMatch r.entity_type r.entity_id s then
        { s with score := r.score, level := r.level,
                 top_reasons_jsonb := r.top_reasons_jsonb, computed_at := r.computed_at }
      else s)
  else tbl ++ [r]

/-- The persistence tail of one `compute_lot_score` pass: flag rows go
through `INSERT ... ON CONFLICT DO NOTHING` (the table has no unique
constraint on its data columns, so every row is appended and no existing
row is ever touched, guarded by `if flag_rows:`), then the single score
row is upserted. -/
def persistPass (d : RiskDB) (flag_rows : List FlagRowP) (score_row : ScoreRowP) : RiskDB :=
  { risk_flags := if flag_rows = [] then d.risk_flags else d.risk_flags ++ flag_rows,
    risk_scores := upsertScore d.risk_scores score_row }

/-- A sequence of scoring passes applied to the risk tables. -/
def runPasses (d : RiskDB) (passes : List (List FlagRowP × ScoreRowP)) : RiskDB :=
  passes.foldl (fun acc p => persistPass acc p.1 p.2) d

/-- Two score rows collide on the upsert key. -/
def sameKey (a b : ScoreRowP) : Prop :=
  a.entity_type = b.entity_type ∧ a.entity_id = b.entity_id

instance (a b : ScoreRowP) : Decidable (sameKey a b) := by
  unfold sameKey; infer_instance

/-- The score-table invariant: at most one row per (entity type, entity id). -/
def atMostOnePerKey (tbl : List ScoreRowP) : Prop :=
  tbl.Pairwise (fun a b => ¬ sameKey a b)

/-- The last pass of a sequence that wrote the given key. -/
def lastPassFor (passes : List (List FlagRowP × ScoreRowP)) (et eid : String) :
    Option (List FlagRowP × ScoreRowP) :=
  (passes.filter (fun p => keyMatch et eid p.2)).getLast?

/-- All flag rows a sequence of passes inserts, in order. -/
def allFlagRows : List (List FlagRowP × ScoreRowP) → List FlagRowP
  | [] => []
  | p :: ps => p.1 ++ allFlagRows ps

-- ─── incremental.py: journal entries and soft deletion ──────────────────────

/-- The per-run counters of `IncrementalETL.run`. -/
structure Summary where
  processed : ℕ
  updated : ℕ
  deleted : ℕ
  errors : ℕ
deriving DecidableEq

/-- A journal entry as `_process_entry` reads it.  Ids arrive as strings
(`int(entity_id)` is applied at soft-delete time); a `none` field is an
absent key. -/
structure JrnEntry where
  entity_type : Option String := none
  object_type : Option String := none
  entity_id : Option String := none
  object_id : Option String := none
  action : Option String := none
deriving DecidableEq

/-- Python `a or b` on two optional strings (an empty string is falsy),
collapsed so that a falsy final value becomes `none`. -/
def resolveField (a b : Option String) : Option String :=
  match a with
  | some s => if s = "" then (match b with
      | some t => if t = "" then none else some t
      | none => none)
    else some s
  | none =>
    match b with
    | some t => if t = "" then none else some t
    | none => none

/-- `entry.get("action", "U")`. -/
def getAction (e : JrnEntry) : String :=
  match e.action with
  | some a => a
  | none => "U"

/-- The numeric value of a decimal digit character. -/
def digitVal (c : Char) : Option ℕ :=
  if c = '0' then some 0
  else if c = '1' then some 1
  else if c = '2' then some 2
  else if c = '3' then some 3
  else if c = '4' then some 4
  else if c = '5' then some 5
  else if c = '6' then some 6
  else if c = '7' then some 7
  else if c = '8' then some 8
  else if c = '9' then some 9
  else none

/-- Accumulating decimal reader; any non-digit fails. -/
def digitsValAux (acc : ℕ) : List Char → Option ℕ
  | [] => some acc
  | c :: cs =>
    match digitVal c with
    | some d => digitsValAux (acc * 10 + d) cs
    | none => none

/-- A non-empty all-digit character list as a number. -/
def digitsVal : List Char → Option ℕ
  | [] => none
  | c :: cs => digitsValAux 0 (c :: cs)

/-- Python `int(s)` on a decimal id string: `none` models the raised
`ValueError` on a non-numeric id. -/
def pyInt (s : String) : Option ℤ :=
  match s.data with
  | [] => none
  | c :: cs =>
    if c = '-' then (digitsVal cs).map (fun m => -(m : ℤ))
    else (digitsVal (c :: cs)).map (fun m => ((m : ℤ)))

/-- Soft-delete over one table: every row whose id matches gets
`is_deleted = True` and a bumped `last_update_at`. -/
def softDeleteTrdBuy (l : List TrdBuyRow) (eid : ℤ) (now : ℚ) : List TrdBuyRow :=
  l.map (fun r => if r.id = eid then { r with is_deleted := true, last_update_at := some now } else r)

/-- Soft-delete over the lots table. -/
def softDeleteLot (l : List LotRow) (eid : ℤ) (now : ℚ) : List LotRow :=
  l.map (fun r => if r.id = eid then { r with is_deleted := true, last_update_at := some now } else r)

/-- Soft-delete over the contracts table. -/
def softDeleteContract (l : List ContractRow) (eid : ℤ) (now : ℚ) : List ContractRow :=
  l.map (fun r => if r.id = eid then { r with is_deleted := true, last_update_at := some now } else r)

/-- Soft-delete over the subjects table. -/
def softDeleteSubject (l : List SubjectRow) (eid : ℤ) (now : ℚ) : List SubjectRow :=
  l.map (fun r => if r.id = eid then { r with is_deleted := true, last_update_at := some now } else r)

/-- `IncrementalETL._soft_delete`: dispatch on the entity type through
`model_map` (an unrecognized type returns before the id is parsed), then
parse the id with `int(...)` — a parse failure is a raised `ValueError`,
modelled as `Except.error`. -/
def soft_delete (st : Store) (entity_type : String) (entity_id : String) (now : ℚ) :
    Except Unit Store :=
  if entity_type = "TrdBuy" then
    match pyInt entity_id with
    | some n => .ok { st with trd_buys := softDeleteTrdBuy st.trd_buys n now }
    | none => .error ()
  else if entity_type = "Lots" then
    match pyInt entity_id with
    | some n => .ok { st with lots := softDeleteLot st.lots n now }
    | none => .error ()
  else if entity_type = "Contract" then
    match pyInt entity_id with
    | some n => .ok { st with contracts := softDeleteContract st.contracts n now }
    | none => .error ()
  else if entity_type = "Subject" then
    match pyInt entity_id with
    | some n => .ok { st with subjects := softDeleteSubject st.subjects n now }
    | none => .error ()
  else .ok st

/-- `IncrementalETL._process_entry`.  The update branch
(`_fetch_and_upsert` plus its network fetch) is abstracted as the
parameter `applyUpdate`; the claims below quantify over it. -/
def process_entry (applyUpdate : String → String → Store → Store)
    (st : Store) (e : JrnEntry) (sm : Summary) (now : ℚ) :
    Except Unit (Store × Summary) :=
  match resolveField e.entity_type e.object_type, resolveField e.entity_id e.object_id with
  | some t, some i =>
    if getAction e = "D" then
      match soft_delete st t i now with
      | .ok st2 => .ok (st2, { sm with deleted := sm.deleted + 1 })
      | .error u => .error u
    else
      .ok (applyUpdate t i st, { sm with updated := sm.updated + 1 })
  | _, _ => .ok (st, sm)

-- ─── Upsert conflict-merge rules (incremental.py vs backfill.py) ────────────

/-- The full `trd_buy` column set of the model. -/
structure TrdBuyRec where
  id : ℤ
  number_anno : Option String
  name_ru : Option String
  name_kz : Option String
  ref_trade_methods_id : Option ℤ
  publish_date : Option ℚ
  start_date : Option ℚ
  end_date : Option ℚ
  total_sum : Option ℚ
  ref_buy_status_id : Option ℤ
  org_bin : Option String
  system_id : Option ℤ
  singl_org_sign : Option ℤ
  is_light_industry : Option ℤ
  is_construction_work : Option ℤ
  last_update_at : Option ℚ
  is_deleted : Bool
deriving DecidableEq

/-- The full `lots` column set of the model. -/
structure LotRec where
  id : ℤ
  trd_buy_id : Option ℤ
  lot_number : Option String
  name_ru : Option String
  name_kz : Option String
  amount : Option ℚ
  customer_bin : Option String
  customer_name : Option String
  dumping_flag : Bool
  union_lots_flag : Bool
  ref_lot_status_id : Option ℤ
  singl_org_sign : Option ℤ
  is_light_industry : Option ℤ
  is_construction_work : Option ℤ
  disable_person_id : Option ℤ
  system_id : Option ℤ
  last_update_at : Option ℚ
  is_deleted : Bool
deriving DecidableEq

/-- The full `contract` column set of the model. -/
structure ContractRec where
  id : ℤ
  trd_buy_id : Option ℤ
  contract_number : Option String
  contract_number_sys : Option String
  trd_buy_number_anno : Option String
  customer_bin : Option String
  supplier_biin : Option String
  contract_sum_wnds : Option ℚ
  sign_date : Option ℚ
  plan_exec_date : Option ℚ
  fakt_exec_date : Option ℚ
  fakt_sum : Option ℚ
  ref_contract_status_id : Option ℤ
  ref_contract_type_id : Option ℤ
  parent_id : Option ℤ
  root_id : Option ℤ
  supplier_legal_address : Option String
  customer_legal_address : Option String
  is_gu : Option ℤ
  exchange_rate : Option ℚ
  system_id : Option ℤ
  last_update_at : Option ℚ
  is_deleted : Bool
deriving DecidableEq

/-- The full `subject` column set of the model. -/
structure SubjectRec where
  id : ℤ
  bin : Option String
  iin : Option String
  inn : Option String
  unp : Option String
  name_ru : Option String
  name_kz : Option String
  full_name_ru : Option String
  regdate : Option ℚ
  crdate : Option ℚ
  year : Option ℤ
  type_supplier : Option ℤ
  mark_small_employer : Option ℤ
  mark_resident : Option ℤ
  mark_patronymic_producer : Option ℤ
  mark_national_company : Option ℤ
  mark_world_company : Option ℤ
  mark_state_monopoly : Option ℤ
  mark_natural_monopoly : Option ℤ
  oked_list : Option ℤ
  krp_code : Option ℤ
  kse_code : Option ℤ
  ref_kopf_code : Option String
  qvazi : Option ℤ
  customer : Option ℤ
  supplier : Option ℤ
  organizer : Option ℤ
  is_single_org : Option ℤ
  email : Option String
  phone : Option String
  website : Option String
  country_code : Option String
  system_id : Option ℤ
  last_update_at : Option ℚ
  is_deleted : Bool
deriving DecidableEq

/-- `IncrementalETL._upsert_trd_buy` conflict rule: on id conflict
overwrite `ref_buy_status_id`, `total_sum`, `last_update_at` from the
excluded row. -/
def incMergeTrdBuy (old excluded : TrdBuyRec) : TrdBuyRec :=
  { old with ref_buy_status_id := excluded.ref_buy_status_id,
             total_sum := excluded.total_sum,
             last_update_at := excluded.last_update_at }

/-- `BackfillETL._load_trd_buy` conflict rule: on id conflict overwrite
`ref_buy_status_id`, `total_sum`, `last_update_at`. -/
def bfMergeTrdBuy (old excluded : TrdBuyRec) : TrdBuyRec :=
  { old with ref_buy_status_id := excluded.ref_buy_status_id,
             total_sum := excluded.total_sum,
             last_update_at := excluded.last_update_at }

/-- `IncrementalETL._upsert_lot` conflict rule: overwrite `amount`,
`ref_lot_status_id`, `dumping_flag`, `last_update_at`. -/
def incMergeLot (old excluded : LotRec) : LotRec :=
  { old with amount := excluded.amount,
             ref_lot_status_id := excluded.ref_lot_status_id,
             dumping_flag := excluded.dumping_flag,
             last_update_at := excluded.last_update_at }

/-- `BackfillETL._load_lots` conflict rule: overwrite `amount`,
`ref_lot_status_id`, `dumping_flag`, `last_update_at`. -/
def bfMergeLot (old excluded : LotRec) : LotRec :=
  { old with amount := excluded.amount,
             ref_lot_status_id := excluded.ref_lot_status_id,
             dumping_flag := excluded.dumping_flag,
             last_update_at := excluded.last_update_at }

/-- `IncrementalETL._upsert_contract` conflict rule: overwrite
`contract_sum_wnds`, `fakt_sum`, `fakt_exec_date`,
`ref_contract_status_id`, `last_update_at`. -/
def incMergeContract (old excluded : ContractRec) : ContractRec :=
  { old with contract_sum_wnds := excluded.contract_sum_wnds,
             fakt_sum := excluded.fakt_sum,
             fakt_exec_date := excluded.fakt_exec_date,
             ref_contract_status_id := excluded.ref_contract_status_id,
             last_update_at := excluded.last_update_at }

/-- `BackfillETL._load_contracts` conflict rule: overwrite
`contract_sum_wnds`, `fakt_sum`, `fakt_exec_date`,
`ref_contract_status_id`, `last_update_at`. -/
def bfMergeContract (old excluded : ContractRec) : ContractRec :=
  { old with contract_sum_wnds := excluded.contract_sum_wnds,
             fakt_sum := excluded.fakt_sum,
             fakt_exec_date := excluded.fakt_exec_date,
             ref_contract_status_id := excluded.ref_contract_status_id,
             last_update_at := excluded.last_update_at }

/-- `IncrementalETL._upsert_subject` conflict rule: overwrite `name_ru`,
`regdate`, `mark_small_employer`, `last_update_at`. -/
def incMergeSubject (old excluded : SubjectRec) : SubjectRec :=
  { old with name_ru := excluded.name_ru,
             regdate := excluded.regdate,
             mark_small_employer := excluded.mark_small_employer,
             last_update_at := excluded.last_update_at }

/-- `BackfillETL._load_subjects` conflict rule: overwrite `name_ru`,
`regdate`, `crdate`, `mark_small_employer`, `mark_resident`, `email`,
`phone`, `last_update_at`. -/
def bfMergeSubject (old excluded : SubjectRec) : SubjectRec :=
  { old with name_ru := excluded.name_ru,
             regdate := excluded.regdate,
             crdate := excluded.crdate,
             mark_small_employer := excluded.mark_small_employer,
             mark_resident := excluded.mark_resident,
             email := excluded.email,
             phone := excluded.phone,
             last_update_at := excluded.last_update_at }

-- ─── backfill.py: per-page commit-then-checkpoint discipline ────────────────

/-- One upstream item of a `trd_buy` page, reduced to the fields the page
loop inspects. -/
structure PageItem where
  id : ℤ
  publish_date : Option ℚ
deriving DecidableEq

/-- One page yielded by `client.paginate`: its items and the opaque next
cursor (`none` at end of data, possibly empty). -/
structure Page where
  items : List PageItem
  next_cursor : Option String
deriving DecidableEq

/-- Observable backfill state: the committed rows and the cursor stored
in `etl_cursors` for this source. -/
structure BFState where
  committed : List PageItem
  cursor : Option String
deriving DecidableEq

/-- The client-side date filter of `_load_trd_buy`: an item with a
publish date outside the window is skipped; an item with no publish date
passes through. -/
def pageRows (date_from date_to : ℚ) (p : Page) : List PageItem :=
  p.items.filter (fun it =>
    match it.publish_date with
    | some d => decide (date_from ≤ d ∧ d ≤ date_to)
    | none => true)

/-- The `if rows:` upsert-and-commit step of one page iteration. -/
def commitStep (date_from date_to : ℚ) (s : BFState) (p : Page) : BFState :=
  if pageRows date_from date_to p = [] then s
  else { s with committed := s.committed ++ pageRows date_from date_to p }

/-- The effect of `if next_cursor: _save_cursor(...)` on the stored
cursor; `_save_cursor` itself returns early on a falsy value, so an
absent or empty next cursor leaves the stored cursor unchanged. -/
def cursorStep (c : Option String) (p : Page) : Option String :=
  match p.next_cursor with
  | some cc => if cc = "" then c else some cc
  | none => c

/-- The checkpoint step of one page iteration. -/
def saveStep (s : BFState) (p : Page) : BFState :=
  { s with cursor := cursorStep s.cursor p }

/-- Every state the backfill loop passes through, at the two failure
boundaries of each page: before the page's commit and between the commit
and the checkpoint; the final element is the state after the last page. -/
def allStates (date_from date_to : ℚ) (s : BFState) : List Page → List BFState
  | [] => [s]
  | p :: ps =>
    let s1 := commitStep date_from date_to s p
    s :: s1 :: allStates date_from date_to (saveStep s1 p) ps

/-- The cursor stored after consuming a list of pages from cursor `c`. -/
def lastSaved (c : Option String) (l : List Page) : Option String :=
  l.foldl cursorStep c

/-- The rows committed by a list of pages, in order. -/
def flatRows : ℚ → ℚ → List Page → List PageItem
  | _, _, [] => []
  | date_from, date_to, p :: ps => pageRows date_from date_to p ++ flatRows date_from date_to ps

/-- Soundness of a reachable backfill state: for some prefix of `k`
fully handled pages, the stored cursor is exactly the last truthy next
cursor of that prefix (so an empty or absent cursor is never stored and
the initial cursor survives until a real one is saved), and the
committed rows cover that whole prefix — plus possibly the rows of the
page currently in flight, committed but not yet checkpointed. -/
def checkpointSound (date_from date_to : ℚ) (ps : List Page) (s0 s1 : BFState) : Prop :=
  ∃ k, k ≤ ps.length ∧
    s1.cursor = lastSaved s0.cursor (ps.take k) ∧
    (∃ extra, s1.committed = s0.committed ++ flatRows date_from date_to (ps.take k) ++ extra ∧
      (extra = [] ∨ ∃ p rest, ps.drop k = p :: rest ∧ extra = pageRows date_from date_to p)) ∧
    (s1.cursor = s0.cursor ∨
      ∃ p ∈ ps.take k, p.next_cursor = s1.cursor ∧ s1.cursor ≠ some "")

-- ─── Concrete fixtures used by counterexamples and witnesses ────────────────

/-- A contract of customer `C` with the given id, supplier and a sign
date equal to its id. -/
def mkContract (n : ℤ) (s : Option String) : ContractRow :=
  { id := n, customer_bin := some ("C"), supplier_biin := s, sign_date := some ((n : ℚ)) }

/-- 51 contracts of one customer: winners s0 … s48 then s1 twice.  The
first 50 contain a single repeat; the last 50 contain two. -/
def exStoreC3 : Store :=
  { contracts := (List.range 51).map (fun k =>
      mkContract (k : ℤ) (if 49 ≤ k then some ("s1") else some ("s" ++ toString k))) }

/-- Six contracts alternating between winners `a` and `b`. -/
def exStoreC3w : Store :=
  { contracts := [mkContract 1 (some ("a")), mkContract 2 (some ("b")),
      mkContract 3 (some ("a")), mkContract 4 (some ("b")),
      mkContract 5 (some ("a")), mkContract 6 (some ("b"))] }

/-- The empty store. -/
def emptyStore : Store := {}

/-- An amendment contract whose root (id 1) is not in the store. -/
def exC5base : Store :=
  { contracts := [{ id := 2, root_id := some 1, contract_sum_wnds := some 130 }] }

/-- A soft-deleted root contract. -/
def exC5deleted : ContractRow :=
  { id := 1, root_id := some 1, contract_sum_wnds := some 100, is_deleted := true }

/-- A soft-deleted lot. -/
def exC5deletedLot : LotRow := { id := 9, amount := some 1, is_deleted := true }

/-- A root contract: id 1, sum 100, `root_id` pointing to itself. -/
def exC10root : ContractRow := { id := 1, root_id := some 1, contract_sum_wnds := some 100 }

/-- An amendment of that root: id 2, sum 130. -/
def exC10amend : ContractRow :=
  { id := 2, root_id := some 1, parent_id := some 1, contract_sum_wnds := some 130 }

/-- A root contract (id 1, sum 100) and its amendment (id 2, sum 130). -/
def exC10 : Store := { contracts := [exC10root, exC10amend] }

/-- A store holding only Tender id 5. -/
def exC6store : Store := { trd_buys := [{ id := 5 }] }

/-- The journal entry of the spec's worked example:
`{entity_type: "TrdBuy", entity_id: "5", action: "D"}`. -/
def exC6entry : JrnEntry :=
  { entity_type := some ("TrdBuy"), entity_id := some ("5"), action := some ("D") }

/-- A flag row fixture. -/
def exFlagRow : FlagRowP :=
  { entity_type := "lot", entity_id := "1", indicator_code := "SHORT_DEADLINE",
    flag_bool := true, value_numeric := some 1, evidence_jsonb := [], computed_at := 0 }

/-- A first score row for lot 1. -/
def exScore1 : ScoreRowP :=
  { entity_type := "lot", entity_id := "1", score := 50, level := "MEDIUM",
    top_reasons_jsonb := [], computed_at := 0 }

/-- A recomputed score row for lot 1. -/
def exScore2 : ScoreRowP :=
  { entity_type := "lot", entity_id := "1", score := 80, level := "HIGH",
    top_reasons_jsonb := [], computed_at := 1 }

/-- Two scoring passes over the same lot. -/
def exPasses : List (List FlagRowP × ScoreRowP) := [([exFlagRow], exScore1), ([], exScore2)]

/-- A carbon-difference pair of full tender rows: every field of the
second differs from the first. -/
def exTrdBuyOld : TrdBuyRec :=
  { id := 1, number_anno := some ("a1"), name_ru := some ("n1"), name_kz := some ("k1"),
    ref_trade_methods_id := some 1, publish_date := some 1, start_date := some 1,
    end_date := some 1, total_sum := some 1, ref_buy_status_id := some 1,
    org_bin := some ("b1"), system_id := some 1, singl_org_sign := some 1,
    is_light_industry := some 1, is_construction_work := some 1,
    last_update_at := some 1, is_deleted := false }

/-- The conflicting excluded tender row. -/
def exTrdBuyNew : TrdBuyRec :=
  { id := 2, number_anno := some ("a2"), name_ru := some ("n2"), name_kz := some ("k2"),
    ref_trade_methods_id := some 2, publish_date := some 2, start_date := some 2,
    end_date := some 2, total_sum := some 2, ref_buy_status_id := some 2,
    org_bin := some ("b2"), system_id := some 2, singl_org_sign := some 2,
    is_light_industry := some 2, is_construction_work := some 2,
    last_update_at := some 2, is_deleted := true }

/-- A single backfill page with one in-window item and a next cursor. -/
def exPage : Page := { items := [{ id := 1, publish_date := some 1 }], next_cursor := some ("c2") }

-- ─── Theorems ───────────────────────────────────────────────────────────────

theorem pyRoundInt_nonneg {x : ℚ} (hx : 0 ≤ x) : 0 ≤ pyRoundInt x := by
  have h0 : (0 : ℤ) ≤ ⌊x⌋ := Int.floor_nonneg.mpr hx
  unfold pyRoundInt
  split
  · exact h0
  · split
    · omega
    · split <;> omega

theorem pyRoundInt_le {x : ℚ} {n : ℤ} (hx : x ≤ (n : ℚ)) : pyRoundInt x ≤ n := by
  have hf : ⌊x⌋ ≤ n := by
    have h := Int.floor_le_floor hx
    simpa using h
  unfold pyRoundInt
  split
  · exact hf
  · rename_i h1
    push_neg at h1
    have hfl : ⌊x⌋ < n := by
      rcases lt_or_eq_of_le hf with h | h
      · exact h
      · exfalso
        have hc : ((⌊x⌋ : ℤ) : ℚ) = (n : ℚ) := by exact_mod_cast h
        have hfloor : (⌊x⌋ : ℚ) ≤ x := Int.floor_le x
        linarith
    split
    · omega
    · split <;> omega

theorem pyRound1_nonneg {x : ℚ} (hx : 0 ≤ x) : 0 ≤ pyRound1 x := by
  unfold pyRound1
  have h : (0 : ℤ) ≤ pyRoundInt (x * 10) := pyRoundInt_nonneg (by linarith)
  have h2 : (0 : ℚ) ≤ (pyRoundInt (x * 10) : ℚ) := by exact_mod_cast h
  linarith

theorem pyRound1_le {x : ℚ} {n : ℤ} (hx : x ≤ (n : ℚ)) : pyRound1 x ≤ (n : ℚ) := by
  unfold pyRound1
  have h : pyRoundInt (x * 10) ≤ 10 * n := by
    apply pyRoundInt_le
    push_cast
    linarith
  have h2 : (pyRoundInt (x * 10) : ℚ) ≤ ((10 * n : ℤ) : ℚ) := by exact_mod_cast h
  push_cast at h2
  linarith

theorem weightOf_nonneg {W : List (String × ℚ)} (hw : ∀ p ∈ W, 0 ≤ p.2) (c : String) :
    0 ≤ weightOf W c := by
  unfold weightOf
  cases hfind : W.find? (fun p => decide (p.1 = c)) with
  | none => exact le_refl 0
  | some p => exact hw p (List.mem_of_find?_eq_some hfind)

theorem sum_weightOf_le (W : List (String × ℚ)) (hw : ∀ p ∈ W, 0 ≤ p.2) :
    ∀ cs : List String, cs.Nodup →
      (cs.map (weightOf W)).sum ≤ (W.map (fun p => p.2)).sum := by
  induction W with
  | nil =>
    intro cs _
    have h : ∀ ds : List String, (ds.map (weightOf [])).sum = 0 := by
      intro ds
      induction ds with
      | nil => simp
      | cons c ds ihd => simp [weightOf, ihd]
    simp [h cs]
  | cons p ws ih =>
    intro cs hcs
    have hw' : ∀ q ∈ ws, 0 ≤ q.2 := fun q hq => hw q (List.mem_cons_of_mem _ hq)
    have hp : 0 ≤ p.2 := hw p (List.mem_cons_self _ _)
    have hwOf : ∀ c, c ≠ p.1 → weightOf (p :: ws) c = weightOf ws c := by
      intro c hc
      have hd : (decide (p.1 = c)) = false := by
        simp [Ne.symm hc]
      simp [weightOf, List.find?_cons, hd]
    by_cases hmem : p.1 ∈ cs
    · have hperm : cs.Perm (p.1 :: cs.erase p.1) := List.perm_cons_erase hmem
      have hsum : (cs.map (weightOf (p :: ws))).sum =
          ((p.1 :: cs.erase p.1).map (weightOf (p :: ws))).sum :=
        (hperm.map _).sum_eq
      have hndup : (cs.erase p.1).Nodup := hcs.erase _
      have hne : ∀ c ∈ cs.erase p.1, c ≠ p.1 := by
        intro c hc
        exact ((List.Nodup.mem_erase_iff hcs).mp hc).1
      have hmap : (cs.erase p.1).map (weightOf (p :: ws)) =
          (cs.erase p.1).map (weightOf ws) :=
        List.map_congr_left (fun c hc => hwOf c (hne c hc))
      have hhead : weightOf (p :: ws) p.1 = p.2 := by
        simp [weightOf, List.find?_cons]
      rw [hsum, List.map_cons, List.sum_cons, hhead, hmap, List.map_cons, List.sum_cons]
      have := ih hw' (cs.erase p.1) hndup
      linarith
    · have hmap : cs.map (weightOf (p :: ws)) = cs.map (weightOf ws) :=
        List.map_congr_left (fun c hc => hwOf c (fun h => hmem (h ▸ hc)))
      rw [hmap, List.map_cons, List.sum_cons]
      have := ih hw' cs hcs
      linarith

theorem raw_score_nonneg {W : List (String × ℚ)} (hw : ∀ p ∈ W, 0 ≤ p.2)
    (flags : List (String × Bool)) : 0 ≤ raw_score W flags := by
  unfold raw_score
  apply List.sum_nonneg
  intro a ha
  rcases List.mem_map.mp ha with ⟨f, _, rfl⟩
  have := weightOf_nonneg hw f.1
  cases f.2 <;> simp <;> linarith

theorem raw_score_le_max {W : List (String × ℚ)} (hw : ∀ p ∈ W, 0 ≤ p.2)
    (flags : List (String × Bool)) (hnd : (flags.map (fun f => f.1)).Nodup) :
    raw_score W flags ≤ max_score W := by
  unfold raw_score max_score
  have h1 : (flags.map (fun f => weightOf W f.1 * (if f.2 then 1 else 0))).sum ≤
      (flags.map (fun f => weightOf W f.1)).sum := by
    apply List.sum_le_sum
    intro f _
    have hnn := weightOf_nonneg hw f.1
    cases f.2 <;> simp <;> linarith
  have h2 : flags.map (fun f => weightOf W f.1) =
      (flags.map (fun f => f.1)).map (weightOf W) := by
    simp [List.map_map, Function.comp]
  calc (flags.map (fun f => weightOf W f.1 * (if f.2 then 1 else 0))).sum
      ≤ (flags.map (fun f => weightOf W f.1)).sum := h1
    _ = ((flags.map (fun f => f.1)).map (weightOf W)).sum := by rw [h2]
    _ ≤ (W.map (fun p => p.2)).sum := sum_weightOf_le W hw _ hnd

/-- C1: for every scored lot, the persisted score is
`round(min(100, rawScore / MAX_SCORE * 100), 1)` where `rawScore` sums
the configured weights of the triggered indicators; the score lies in
`[0, 100]`; the level is the pure threshold function of the score (`LOW`
up to `lowMax`, `MEDIUM` up to `mediumMax`, else `HIGH`), so score 0
classifies `LOW` and score 100 classifies `HIGH` — all under the
spec-modelled configuration: nonnegative weights with positive total and
thresholds `0 ≤ lowMax < mediumMax < 100`. -/
theorem C1_score_range_and_level (W : List (String × ℚ)) (flags : List (String × Bool))
    (lowMax mediumMax : ℚ)
    (hw : ∀ p ∈ W, 0 ≤ p.2) (hpos : 0 < max_score W)
    (hnd : (flags.map (fun f => f.1)).Nodup)
    (hl0 : 0 ≤ lowMax) (hlm : lowMax < mediumMax) (hm : mediumMax < 100) :
    normalize_score (max_score W) (raw_score W flags) =
        pyRound1 (min 100 (raw_score W flags / max_score W * 100)) ∧
    0 ≤ normalize_score (max_score W) (raw_score W flags) ∧
    normalize_score (max_score W) (raw_score W flags) ≤ 100 ∧
    (∀ s : ℚ, s ≤ lowMax → get_level lowMax mediumMax s = "LOW") ∧
    (∀ s : ℚ, lowMax < s → s ≤ mediumMax → get_level lowMax mediumMax s = "MEDIUM") ∧
    (∀ s : ℚ, mediumMax < s → get_level lowMax mediumMax s = "HIGH") ∧
    (normalize_score (max_score W) (raw_score W flags) = 0 →
      get_level lowMax mediumMax (normalize_score (max_score W) (raw_score W flags)) = "LOW") ∧
    (normalize_score (max_score W) (raw_score W flags) = 100 →
      get_level lowMax mediumMax (normalize_score (max_score W) (raw_score W flags)) = "HIGH") := by
  have h0 : 0 ≤ raw_score W flags := raw_score_nonneg hw flags
  have h1 : raw_score W flags ≤ max_score W := raw_score_le_max hw flags hnd
  have hx0 : 0 ≤ raw_score W flags / max_score W * 100 := by
    have := div_nonneg h0 (le_of_lt hpos)
    linarith
  have hmin0 : 0 ≤ min 100 (raw_score W flags / max_score W * 100) :=
    le_min (by norm_num) hx0
  have hmin1 : min 100 (raw_score W flags / max_score W * 100) ≤ ((100 : ℤ) : ℚ) := by
    have := min_le_left (100 : ℚ) (raw_score W flags / max_score W * 100)
    push_cast
    linarith
  have hle : normalize_score (max_score W) (raw_score W flags) ≤ 100 := by
    have := pyRound1_le hmin1
    unfold normalize_score
    push_cast at this
    linarith
  have hge : 0 ≤ normalize_score (max_score W) (raw_score W flags) :=
    pyRound1_nonneg hmin0
  refine ⟨rfl, hge, hle, ?_, ?_, ?_, ?_, ?_⟩
  · intro s hs
    simp [get_level, hs]
  · intro s hs1 hs2
    have : ¬ s ≤ lowMax := by linarith
    simp [get_level, this, hs2]
  · intro s hs
    have h1 : ¬ s ≤ lowMax := by linarith
    have h2 : ¬ s ≤ mediumMax := by linarith
    simp [get_level, h1, h2]
  · intro h
    rw [h]
    simp [get_level, hl0]
  · intro h
    rw [h]
    have h1 : ¬ (100 : ℚ) ≤ lowMax := by linarith
    have h2 : ¬ (100 : ℚ) ≤ mediumMax := by linarith
    simp [get_level, h1, h2]

/-- Witness for C1 at the one-indicator configuration
`weights = [("A", 10)]`, thresholds 30 and 70, with the indicator
triggered: the normalized score is 100, within bounds, and classifies
`HIGH`. -/
theorem C1_score_range_and_level_witness :
    0 ≤ normalize_score (max_score [(("A" : String), (10 : ℚ))]) (raw_score [(("A" : String), (10 : ℚ))] [(("A" : String), true)]) ∧
    normalize_score (max_score [(("A" : String), (10 : ℚ))]) (raw_score [(("A" : String), (10 : ℚ))] [(("A" : String), true)]) ≤ 100 ∧
    get_level 30 70 (normalize_score (max_score [(("A" : String), (10 : ℚ))]) (raw_score [(("A" : String), (10 : ℚ))] [(("A" : String), true)])) = "HIGH" := by
  have h := C1_score_range_and_level [(("A" : String), (10 : ℚ))] [(("A" : String), true)] 30 70
    (by intro p hp; simp at hp; rw [hp]; norm_num)
    (by norm_num [max_score, List.map, List.sum_cons])
    (by simp)
    (by norm_num) (by norm_num) (by norm_num)
  have hraw : raw_score [(("A" : String), (10 : ℚ))] [(("A" : String), true)] = 10 := by
    norm_num [raw_score, weightOf, List.find?_cons]
  have hmax : max_score [(("A" : String), (10 : ℚ))] = 10 := by
    norm_num [max_score]
  have hscore : normalize_score (max_score [(("A" : String), (10 : ℚ))])
      (raw_score [(("A" : String), (10 : ℚ))] [(("A" : String), true)]) = 100 := by
    rw [hraw, hmax]
    norm_num [normalize_score, pyRound1, pyRoundInt]
  exact ⟨h.2.1, h.2.2.1, h.2.2.2.2.2.2.2 hscore⟩

/-- C2: `check_lot_splitting` triggers exactly when the tender has more
than 5 non-deleted lots, the average lot amount is below the literal
source threshold 5,000,000 and the total exceeds 10,000,000; the value
is always the lot count. -/
theorem C2_lot_splitting_thresholds (db : Store) (trd_buy_id : ℤ) :
    ((check_lot_splitting db trd_buy_id).flag = true ↔
      (5 < (splitLots db trd_buy_id).length ∧ splitAvg db trd_buy_id < 5000000 ∧
        10000000 < splitTotal db trd_buy_id)) ∧
    (check_lot_splitting db trd_buy_id).value = some (((splitLots db trd_buy_id).length : ℚ)) := by
  constructor
  · simp [check_lot_splitting]
  · rfl

/-- C3 counterexample: on 51 contracts of one customer the code walks
the FIRST 50 by sign date (`ORDER BY sign_date LIMIT 50`) and finds a
single rotation, while the claim's "last 50 contracts" reading finds two
rotations and triggers. -/
theorem C3_counterexample :
    (check_carousel_pattern exStoreC3 "C").flag = false ∧
    (carousel_claimed exStoreC3 "C").flag = true := by
  constructor
  · decide
  · decide

/-- C3 amended: `check_carousel_pattern` evaluates the FIRST 50 of the
customer's non-deleted contracts in ascending sign-date order; it
triggers exactly when the rotation counter reaches 2, there are at
least 2 distinct winners and the sample holds at least 6 contracts; the
value is the rotation count on the main path and 0 on the two
short-sample guards. -/
theorem C3_carousel_first_fifty (db : Store) (customer_bin : String) :
    ((check_carousel_pattern db customer_bin).flag = true ↔
      (2 ≤ rotations [] (carouselSuppliers db customer_bin) ∧
       2 ≤ (uniqList (carouselSuppliers db customer_bin)).length ∧
       6 ≤ (carouselSample db customer_bin).length)) ∧
    (6 ≤ (carouselSample db customer_bin).length →
      2 ≤ (uniqList (carouselSuppliers db customer_bin)).length →
      (check_carousel_pattern db customer_bin).value =
        some ((rotations [] (carouselSuppliers db customer_bin) : ℚ))) ∧
    ((carouselSample db customer_bin).length < 6 ∨
      (uniqList (carouselSuppliers db customer_bin)).length < 2 →
      (check_carousel_pattern db customer_bin).value = some 0) := by
  by_cases h6 : (carouselSample db customer_bin).length < 6
  · refine ⟨?_, ?_, ?_⟩
    · simp [check_carousel_pattern, h6]
    · intro h _
      omega
    · intro _
      simp [check_carousel_pattern, h6]
  · by_cases h2 : (uniqList (carouselSuppliers db customer_bin)).length < 2
    · refine ⟨?_, ?_, ?_⟩
      · simp [check_carousel_pattern, h6, h2]
      · intro _ h
        omega
      · intro _
        simp [check_carousel_pattern, h6, h2]
    · refine ⟨?_, ?_, ?_⟩
      · simp [check_carousel_pattern, h6, h2]
        all_goals omega
      · intro _ _
        simp [check_carousel_pattern, h6, h2]
      · intro h
        omega

/-- Witness for C3 on six contracts alternating between two winners:
two rotations, the indicator triggers and reports them. -/
theorem C3_carousel_first_fifty_witness :
    (check_carousel_pattern exStoreC3w "C").flag = true ∧
    (check_carousel_pattern exStoreC3w "C").value = some 2 := by
  have h := C3_carousel_first_fifty exStoreC3w "C"
  constructor
  · exact h.1.mpr ⟨by decide, by decide, by decide⟩
  · have hv := h.2.1 (by decide) (by decide)
    have hr : rotations [] (carouselSuppliers exStoreC3w "C") = 2 := by decide
    rw [hv, hr]
    norm_num

/-- C4 counterexample: `check_few_bids` on a store with no matching
data returns value `0.0` and a populated evidence payload, not the null
value and empty evidence the claim asserts for all sixteen indicators. -/
theorem C4_counterexample :
    ¬ ((check_few_bids emptyStore 1).value = none ∧
       (check_few_bids emptyStore 1).evidence = []) := by
  decide

/-- C4 amended: when the linked data an indicator reads is missing, all
sixteen indicators return without failing and with `triggered = false`;
the by-id indicators return a null value and empty evidence, while the
count/aggregate-based ones return value 0 — with empty evidence except
`check_few_bids` and `check_lot_splitting`, which report their zero
counts. -/
theorem C4_missing_data_degrades (db : Store) (tid lid cid : ℤ) (cb sb : String)
    (contract_sum now : ℚ)
    (hT : ∀ r ∈ db.trd_buys, r.id ≠ tid)
    (hA : ∀ a ∈ db.trd_apps, a.buy_id ≠ some tid)
    (hL : ∀ l ∈ db.lots, l.trd_buy_id ≠ some tid)
    (hLid : ∀ l ∈ db.lots, l.id ≠ lid)
    (hC : ∀ c ∈ db.contracts, c.id ≠ cid)
    (hP : ∀ p ∈ db.treasury_pays, p.contract_id ≠ some cid)
    (hCB : ∀ c ∈ db.contracts, c.customer_bin ≠ some cb)
    (hSB : ∀ c ∈ db.contracts, c.supplier_biin ≠ some sb)
    (hSA : ∀ a ∈ db.trd_apps, a.supplier_biin ≠ some sb)
    (hSub : ∀ s ∈ db.subjects, s.bin ≠ some sb ∧ s.iin ≠ some sb)
    (hR : ∀ r ∈ db.rnus, ¬ (r.supplier_biin = some sb ∧ r.is_active = true)) :
    check_short_deadline db tid = ⟨false, none, []⟩ ∧
    check_few_bids db tid = ⟨false, some 0, [("bid_count", .i 0), ("threshold", .i 2)]⟩ ∧
    check_lot_splitting db tid =
      ⟨false, some 0, [("lot_count", .i 0), ("total_sum", .q 0), ("avg_lot_amount", .q 0)]⟩ ∧
    check_recurring_winner db cb sb = ⟨false, some 0, []⟩ ∧
    check_supplier_concentration db sb = ⟨false, some 0, []⟩ ∧
    check_addendum_value_increase db cid = ⟨false, none, []⟩ ∧
    check_win_min_then_addendum db cid = ⟨false, none, []⟩ ∧
    check_weird_execution_time db cid = ⟨false, none, []⟩ ∧
    check_rnu_flag db sb = ⟨false, some 0, []⟩ ∧
    check_dumping_flag db lid = ⟨false, none, []⟩ ∧
    check_new_company_big_contract db sb contract_sum now = ⟨false, none, []⟩ ∧
    check_payment_without_act db cid = ⟨false, some 0, []⟩ ∧
    check_high_win_rate_few_bids db sb = ⟨false, some 0, []⟩ ∧
    check_carousel_pattern db cb = ⟨false, some 0, []⟩ ∧
    check_last_minute_changes db tid = ⟨false, none, []⟩ ∧
    check_common_requisites db tid = ⟨false, some 0, []⟩ := by
  have hTf : db.trd_buys.find? (fun r => decide (r.id = tid)) = none := by
    rw [List.find?_eq_none]
    intro r hr
    simp [hT r hr]
  have hAf : db.trd_apps.filter (fun a => decide (a.buy_id = some tid)) = [] := by
    rw [List.filter_eq_nil_iff]
    intro a ha
    simp [hA a ha]
  have hLf : splitLots db tid = [] := by
    unfold splitLots
    rw [List.filter_eq_nil_iff]
    intro l hl
    simp [hL l hl]
  have hLidf : db.lots.find? (fun l => decide (l.id = lid)) = none := by
    rw [List.find?_eq_none]
    intro l hl
    simp [hLid l hl]
  have hCf : db.contracts.find? (fun c => decide (c.id = cid)) = none := by
    rw [List.find?_eq_none]
    intro c hc
    simp [hC c hc]
  have hPf : db.treasury_pays.filter (fun p => decide (p.contract_id = some cid)) = [] := by
    rw [List.filter_eq_nil_iff]
    intro p hp
    simp [hP p hp]
  have hCBf : db.contracts.filter (fun c =>
      decide (c.customer_bin = some cb ∧ c.is_deleted = false)) = [] := by
    rw [List.filter_eq_nil_iff]
    intro c hc
    simp [hCB c hc]
  have hSBf : db.contracts.filter (fun c =>
      decide (c.supplier_biin = some sb ∧ c.is_deleted = false)) = [] := by
    rw [List.filter_eq_nil_iff]
    intro c hc
    simp [hSB c hc]
  have hSAf : db.trd_apps.filter (fun a => decide (a.supplier_biin = some sb)) = [] := by
    rw [List.filter_eq_nil_iff]
    intro a ha
    simp [hSA a ha]
  have hSubf : db.subjects.filter (fun s =>
      decide (s.bin = some sb ∨ s.iin = some sb)) = [] := by
    rw [List.filter_eq_nil_iff]
    intro s hs
    simp [(hSub s hs).1, (hSub s hs).2]
  have hRf : db.rnus.filter (fun r =>
      decide (r.supplier_biin = some sb ∧ r.is_active = true)) = [] := by
    rw [List.filter_eq_nil_iff]
    intro r hr
    simpa using hR r hr
  refine ⟨?_, ?_, ?_, ?_, ?_, ?_, ?_, ?_, ?_, ?_, ?_, ?_, ?_, ?_, ?_, ?_⟩
  · unfold check_short_deadline
    rw [hTf]
  · unfold check_few_bids
    rw [hAf]
    simp
  · unfold check_lot_splitting splitTotal splitAvg splitAmounts
    rw [hLf]
    simp
  · unfold check_recurring_winner
    rw [hCBf]
    simp
  · unfold check_supplier_concentration
    rw [hSBf]
    simp
  · unfold check_addendum_value_increase
    rw [hCf]
  · unfold check_win_min_then_addendum
    rw [hCf]
  · unfold check_weird_execution_time
    rw [hCf]
  · unfold check_rnu_flag
    rw [hRf]
    rfl
  · unfold check_dumping_flag
    rw [hLidf]
  · unfold check_new_company_big_contract
    rw [hSubf]
    rfl
  · unfold check_payment_without_act
    rw [hPf]
    simp
  · unfold check_high_win_rate_few_bids
    rw [hSAf]
    simp [uniqList]
  · unfold check_carousel_pattern carouselSample
    rw [hCBf]
    simp [sortBySign]
  · unfold check_last_minute_changes
    rw [hTf]
  · unfold check_common_requisites
    rw [hAf]
    simp [uniqList]

/-- Witness for C4 at the empty store: the first two indicators behave
as the amended claim states. -/
theorem C4_missing_data_degrades_witness :
    check_short_deadline emptyStore 1 = ⟨false, none, []⟩ ∧
    check_few_bids emptyStore 1 =
      ⟨false, some 0, [("bid_count", .i 0), ("threshold", .i 2)]⟩ := by
  have h := C4_missing_data_degrades emptyStore 1 1 1 "c" "s" 0 0
    (by simp [emptyStore]) (by simp [emptyStore]) (by simp [emptyStore])
    (by simp [emptyStore]) (by simp [emptyStore]) (by simp [emptyStore])
    (by simp [emptyStore]) (by simp [emptyStore]) (by simp [emptyStore])
    (by simp [emptyStore]) (by simp [emptyStore])
  exact ⟨h.1, h.2.1⟩

/-- C5 counterexample: adding a soft-deleted root contract to the store
changes `check_addendum_value_increase` — its by-id lookups carry no
`is_deleted` filter, so the universal exclusion the claim asserts fails. -/
theorem C5_counterexample :
    exC5deleted.is_deleted = true ∧
    (check_addendum_value_increase
        { exC5base with contracts := exC5deleted :: exC5base.contracts } 2).flag = true ∧
    (check_addendum_value_increase exC5base 2).flag = false := by
  refine ⟨rfl, ?_, by decide⟩
  show (check_addendum_value_increase
      { exC5base with contracts := exC5deleted :: exC5base.contracts } 2).flag = true
  norm_num [check_addendum_value_increase, exC5base, exC5deleted, List.find?_cons]

/-- C5 amended: the aggregate indicators that sample Contract and Lot
populations do exclude soft-deleted rows — `check_lot_splitting`,
`check_recurring_winner`, `check_supplier_concentration`,
`check_carousel_pattern` and `check_high_win_rate_few_bids` are
unchanged when a soft-deleted contract and a soft-deleted lot are added
to the store; by-id point lookups (e.g. the root-contract fetch of
`check_addendum_value_increase`) carry no such filter. -/
theorem C5_deleted_excluded_from_aggregates (db : Store) (c : ContractRow) (l : LotRow)
    (hc : c.is_deleted = true) (hl : l.is_deleted = true)
    (tid : ℤ) (cb sb : String) :
    check_lot_splitting { db with lots := l :: db.lots, contracts := c :: db.contracts } tid =
      check_lot_splitting db tid ∧
    check_recurring_winner { db with lots := l :: db.lots, contracts := c :: db.contracts } cb sb =
      check_recurring_winner db cb sb ∧
    check_supplier_concentration { db with lots := l :: db.lots, contracts := c :: db.contracts } sb =
      check_supplier_concentration db sb ∧
    check_carousel_pattern { db with lots := l :: db.lots, contracts := c :: db.contracts } cb =
      check_carousel_pattern db cb ∧
    check_high_win_rate_few_bids { db with lots := l :: db.lots, contracts := c :: db.contracts } sb =
      check_high_win_rate_few_bids db sb := by
  refine ⟨?_, ?_, ?_, ?_, ?_⟩
  · unfold check_lot_splitting splitTotal splitAvg splitAmounts splitLots
    simp [List.filter_cons, hl]
  · unfold check_recurring_winner
    simp [List.filter_cons, hc]
  · unfold check_supplier_concentration
    simp [List.filter_cons, hc]
  · unfold check_carousel_pattern carouselSuppliers carouselSample
    simp [List.filter_cons, hc]
  · unfold check_high_win_rate_few_bids
    simp [List.filter_cons, hc]

/-- Witness for C5: adding a soft-deleted contract and lot to the
one-amendment store leaves `check_recurring_winner` and
`check_lot_splitting` unchanged. -/
theorem C5_deleted_excluded_witness :
    check_lot_splitting { exC5base with lots := exC5deletedLot :: exC5base.lots, contracts := exC5deleted :: exC5base.contracts } 1 =
      check_lot_splitting exC5base 1 ∧
    check_recurring_winner { exC5base with lots := exC5deletedLot :: exC5base.lots, contracts := exC5deleted :: exC5base.contracts } "C" "S" =
      check_recurring_winner exC5base "C" "S" := by
  have h := C5_deleted_excluded_from_aggregates exC5base exC5deleted exC5deletedLot
    rfl rfl 1 "C" "S"
  exact ⟨h.1, h.2.1⟩

theorem forall2_map_self {α : Type} (l : List α) (f : α → α) (P : α → α → Prop)
    (h : ∀ x ∈ l, P x (f x)) : List.Forall₂ P l (l.map f) := by
  induction l with
  | nil => exact List.Forall₂.nil
  | cons a l ih =>
    rw [List.map_cons]
    exact List.Forall₂.cons (h a (List.mem_cons_self _ _))
      (ih (fun x hx => h x (List.mem_cons_of_mem _ hx)))

/-- C6: a journal entry with action `"D"` whose entity type and id
resolve soft-deletes the matching row of the resolved type (deleted flag
set, `last_update_at` bumped, other rows and tables untouched) and bumps
only the summary's `deleted` counter; an unrecognized entity type skips
the soft-delete and modifies no row, while still counting the entry as
deleted. -/
theorem C6_journal_delete (applyUpdate : String → String → Store → Store)
    (st : Store) (e : JrnEntry) (sm : Summary) (now : ℚ) (t i : String) (n : ℤ)
    (ht : resolveField e.entity_type e.object_type = some t)
    (hi : resolveField e.entity_id e.object_id = some i)
    (ha : getAction e = "D")
    (hn : pyInt i = some n) :
    (t = "TrdBuy" → process_entry applyUpdate st e sm now =
      .ok ({ st with trd_buys := softDeleteTrdBuy st.trd_buys n now },
           { sm with deleted := sm.deleted + 1 })) ∧
    (t = "Lots" → process_entry applyUpdate st e sm now =
      .ok ({ st with lots := softDeleteLot st.lots n now },
           { sm with deleted := sm.deleted + 1 })) ∧
    (t = "Contract" → process_entry applyUpdate st e sm now =
      .ok ({ st with contracts := softDeleteContract st.contracts n now },
           { sm with deleted := sm.deleted + 1 })) ∧
    (t = "Subject" → process_entry applyUpdate st e sm now =
      .ok ({ st with subjects := softDeleteSubject st.subjects n now },
           { sm with deleted := sm.deleted + 1 })) ∧
    (t ≠ "TrdBuy" → t ≠ "Lots" → t ≠ "Contract" → t ≠ "Subject" →
      process_entry applyUpdate st e sm now = .ok (st, { sm with deleted := sm.deleted + 1 })) ∧
    List.Forall₂ (fun r0 r1 : TrdBuyRow =>
        (r0.id = n → r1.is_deleted = true ∧ r1.last_update_at = some now ∧ r1.id = r0.id) ∧
        (r0.id ≠ n → r1 = r0)) st.trd_buys (softDeleteTrdBuy st.trd_buys n now) ∧
    List.Forall₂ (fun r0 r1 : LotRow =>
        (r0.id = n → r1.is_deleted = true ∧ r1.last_update_at = some now ∧ r1.id = r0.id) ∧
        (r0.id ≠ n → r1 = r0)) st.lots (softDeleteLot st.lots n now) ∧
    List.Forall₂ (fun r0 r1 : ContractRow =>
        (r0.id = n → r1.is_deleted = true ∧ r1.last_update_at = some now ∧ r1.id = r0.id) ∧
        (r0.id ≠ n → r1 = r0)) st.contracts (softDeleteContract st.contracts n now) ∧
    List.Forall₂ (fun r0 r1 : SubjectRow =>
        (r0.id = n → r1.is_deleted = true ∧ r1.last_update_at = some now ∧ r1.id = r0.id) ∧
        (r0.id ≠ n → r1 = r0)) st.subjects (softDeleteSubject st.subjects n now) := by
  have hbase : ∀ ht4 : String,
      process_entry applyUpdate st e sm now =
        (match soft_delete st t i now with
          | .ok st2 => .ok (st2, { sm with deleted := sm.deleted + 1 })
          | .error u => .error u) := by
    intro _
    unfold process_entry
    rw [ht, hi, ha]
    simp
  refine ⟨?_, ?_, ?_, ?_, ?_, ?_, ?_, ?_, ?_⟩
  · intro h
    rw [hbase t, h]
    simp [soft_delete, hn]
  · intro h
    rw [hbase t, h]
    simp [soft_delete, hn]
  · intro h
    rw [hbase t, h]
    simp [soft_delete, hn]
  · intro h
    rw [hbase t, h]
    simp [soft_delete, hn]
  · intro h1 h2 h3 h4
    rw [hbase t]
    simp [soft_delete, h1, h2, h3, h4]
  · apply forall2_map_self
    intro r _
    constructor
    · intro hid
      simp [hid]
    · intro hid
      simp [hid]
  · apply forall2_map_self
    intro r _
    constructor
    · intro hid
      simp [hid]
    · intro hid
      simp [hid]
  · apply forall2_map_self
    intro r _
    constructor
    · intro hid
      simp [hid]
    · intro hid
      simp [hid]
  · apply forall2_map_self
    intro r _
    constructor
    · intro hid
      simp [hid]
    · intro hid
      simp [hid]

/-- Witness for C6 on the spec's worked example: the journal entry
`{entity_type: "TrdBuy", entity_id: "5", action: "D"}` marks Tender 5
deleted and bumps only the deleted counter. -/
theorem C6_journal_delete_witness :
    process_entry (fun _ _ s => s) exC6store exC6entry ⟨0, 0, 0, 0⟩ 7 =
      .ok ({ exC6store with trd_buys := softDeleteTrdBuy exC6store.trd_buys 5 7 },
           ⟨0, 0, 1, 0⟩) := by
  have h := C6_journal_delete (fun _ _ s => s) exC6store exC6entry ⟨0, 0, 0, 0⟩ 7
    "TrdBuy" "5" 5 (by decide) (by decide) (by decide) (by decide)
  exact h.1 rfl

theorem persistPass_scores (X : RiskDB) (fr : List FlagRowP) (sr : ScoreRowP) :
    (persistPass X fr sr).risk_scores = upsertScore X.risk_scores sr := rfl

theorem persistPass_flags (X : RiskDB) (fr : List FlagRowP) (sr : ScoreRowP) :
    (persistPass X fr sr).risk_flags = X.risk_flags ++ fr := by
  show (if fr = [] then X.risk_flags else X.risk_flags ++ fr) = X.risk_flags ++ fr
  split
  · rename_i h
    simp [h]
  · rfl

theorem upsertApply_keeps_key (r s : ScoreRowP) :
    ((if keyMatch r.entity_type r.entity_id s then
        { s with score := r.score, level := r.level,
                 top_reasons_jsonb := r.top_reasons_jsonb,
                 computed_at := r.computed_at }
      else s).entity_type = s.entity_type ∧
     (if keyMatch r.entity_type r.entity_id s then
        { s with score := r.score, level := r.level,
                 top_reasons_jsonb := r.top_reasons_jsonb,
                 computed_at := r.computed_at }
      else s).entity_id = s.entity_id) := by
  by_cases hk : keyMatch r.entity_type r.entity_id s = true
  · simp [hk]
  · simp [hk]

theorem upsertScore_payload (tbl : List ScoreRowP) (r s : ScoreRowP)
    (hs : s ∈ upsertScore tbl r) (hkey : sameKey s r) :
    s.score = r.score ∧ s.level = r.level ∧ s.top_reasons_jsonb = r.top_reasons_jsonb := by
  unfold upsertScore at hs
  by_cases hany : tbl.any (keyMatch r.entity_type r.entity_id) = true
  · rw [if_pos hany] at hs
    rcases List.mem_map.mp hs with ⟨old, hold, heq⟩
    by_cases hk : keyMatch r.entity_type r.entity_id old = true
    · rw [if_pos hk] at heq
      rw [← heq]
      exact ⟨rfl, rfl, rfl⟩
    · rw [if_neg hk] at heq
      exfalso
      apply hk
      subst heq
      simp [keyMatch, hkey.1, hkey.2]
  · rw [if_neg hany] at hs
    rcases List.mem_append.mp hs with h | h
    · exfalso
      have hall : ∀ x ∈ tbl, ¬ (keyMatch r.entity_type r.entity_id x = true) := by
        simpa [List.any_eq_true] using hany
      exact hall s h (by simp [keyMatch, hkey.1, hkey.2])
    · have hsr : s = r := by simpa using h
      subst hsr
      exact ⟨rfl, rfl, rfl⟩

theorem upsertScore_mem_of_not_key (tbl : List ScoreRowP) (r s : ScoreRowP)
    (hs : s ∈ upsertScore tbl r) (hkey : ¬ sameKey s r) : s ∈ tbl := by
  unfold upsertScore at hs
  by_cases hany : tbl.any (keyMatch r.entity_type r.entity_id) = true
  · rw [if_pos hany] at hs
    rcases List.mem_map.mp hs with ⟨old, hold, heq⟩
    by_cases hk : keyMatch r.entity_type r.entity_id old = true
    · exfalso
      apply hkey
      rw [← heq, if_pos hk]
      have hk' : old.entity_type = r.entity_type ∧ old.entity_id = r.entity_id := by
        simpa [keyMatch] using hk
      exact ⟨hk'.1, hk'.2⟩
    · rw [if_neg hk] at heq
      rw [← heq]
      exact hold
  · rw [if_neg hany] at hs
    rcases List.mem_append.mp hs with h | h
    · exact h
    · exfalso
      apply hkey
      have hsr : s = r := by simpa using h
      subst hsr
      exact ⟨rfl, rfl⟩

theorem upsertScore_exists_key (tbl : List ScoreRowP) (r : ScoreRowP) :
    ∃ s ∈ upsertScore tbl r, sameKey s r := by
  unfold upsertScore
  by_cases hany : tbl.any (keyMatch r.entity_type r.entity_id) = true
  · rw [if_pos hany]
    rcases List.any_eq_true.mp hany with ⟨old, hold, hk⟩
    refine ⟨_, List.mem_map_of_mem _ hold, ?_⟩
    have hk' : old.entity_type = r.entity_type ∧ old.entity_id = r.entity_id := by
      simpa [keyMatch] using hk
    rw [if_pos hk]
    exact ⟨hk'.1, hk'.2⟩
  · rw [if_neg hany]
    exact ⟨r, by simp, ⟨rfl, rfl⟩⟩

theorem upsertScore_pairwise (tbl : List ScoreRowP) (r : ScoreRowP)
    (h : atMostOnePerKey tbl) : atMostOnePerKey (upsertScore tbl r) := by
  unfold upsertScore
  by_cases hany : tbl.any (keyMatch r.entity_type r.entity_id) = true
  · rw [if_pos hany]
    unfold atMostOnePerKey at h ⊢
    refine List.Pairwise.map _ ?_ h
    intro a b hab hsk
    apply hab
    have ha := upsertApply_keeps_key r a
    have hb := upsertApply_keeps_key r b
    exact ⟨by rw [← ha.1, ← hb.1, hsk.1], by rw [← ha.2, ← hb.2, hsk.2]⟩
  · rw [if_neg hany]
    unfold atMostOnePerKey at h ⊢
    rw [List.pairwise_append]
    refine ⟨h, List.pairwise_singleton _ _, ?_⟩
    intro a ha b hb
    have hbr : b = r := by simpa using hb
    subst hbr
    have hall : ∀ x ∈ tbl, ¬ (keyMatch b.entity_type b.entity_id x = true) := by
      simpa [List.any_eq_true] using hany
    intro hk
    exact hall a ha (by simp [keyMatch, hk.1, hk.2])

theorem upsertScore_exists_mono (tbl : List ScoreRowP) (r : ScoreRowP) (et eid : String)
    (h : ∃ s ∈ tbl, s.entity_type = et ∧ s.entity_id = eid) :
    ∃ s ∈ upsertScore tbl r, s.entity_type = et ∧ s.entity_id = eid := by
  rcases h with ⟨s, hs, h1, h2⟩
  unfold upsertScore
  by_cases hany : tbl.any (keyMatch r.entity_type r.entity_id) = true
  · rw [if_pos hany]
    refine ⟨_, List.mem_map_of_mem _ hs, ?_⟩
    have hp := upsertApply_keeps_key r s
    exact ⟨by rw [hp.1, h1], by rw [hp.2, h2]⟩
  · rw [if_neg hany]
    exact ⟨s, List.mem_append_left _ hs, h1, h2⟩

theorem allFlagRows_concat (ps : List (List FlagRowP × ScoreRowP))
    (q : List FlagRowP × ScoreRowP) :
    allFlagRows (ps ++ [q]) = allFlagRows ps ++ q.1 := by
  induction ps with
  | nil => simp [allFlagRows]
  | cons p ps ih => simp [allFlagRows, ih]

theorem lastPassFor_concat (ps : List (List FlagRowP × ScoreRowP))
    (q : List FlagRowP × ScoreRowP) (et eid : String) :
    lastPassFor (ps ++ [q]) et eid =
      if keyMatch et eid q.2 = true then some q else lastPassFor ps et eid := by
  unfold lastPassFor
  rw [List.filter_append]
  by_cases hk : keyMatch et eid q.2 = true
  · rw [if_pos hk]
    have : List.filter (fun p => keyMatch et eid p.2) [q] = [q] := by
      simp [List.filter, hk]
    rw [this, List.getLast?_concat]
  · rw [if_neg hk]
    have : List.filter (fun p => keyMatch et eid p.2) [q] = [] := by
      simp [List.filter, hk]
    rw [this, List.append_nil]

/-- C7: over any sequence of scoring passes, flag rows are only ever
appended (never overwritten), the score table keeps at most one row per
(entity type, entity id), and for every key with at least one pass the
surviving row carries the score, level and top reasons of the most
recent pass for that key. -/
theorem C7_flag_insert_and_score_upsert (d : RiskDB)
    (passes : List (List FlagRowP × ScoreRowP))
    (hd : atMostOnePerKey d.risk_scores) :
    atMostOnePerKey (runPasses d passes).risk_scores ∧
    (runPasses d passes).risk_flags = d.risk_flags ++ allFlagRows passes ∧
    (∀ et eid q, lastPassFor passes et eid = some q →
      (∀ s ∈ (runPasses d passes).risk_scores, s.entity_type = et → s.entity_id = eid →
        s.score = q.2.score ∧ s.level = q.2.level ∧
        s.top_reasons_jsonb = q.2.top_reasons_jsonb) ∧
      (∃ s ∈ (runPasses d passes).risk_scores,
        s.entity_type = et ∧ s.entity_id = eid)) := by
  induction passes using List.reverseRecOn with
  | nil =>
    refine ⟨hd, by simp [runPasses, allFlagRows], ?_⟩
    intro et eid q hq
    simp [lastPassFor] at hq
  | append_singleton ps q ih =>
    obtain ⟨ih1, ih2, ih3⟩ := ih
    have hrun : runPasses d (ps ++ [q]) = persistPass (runPasses d ps) q.1 q.2 := by
      simp [runPasses, List.foldl_append]
    refine ⟨?_, ?_, ?_⟩
    · rw [hrun, persistPass_scores]
      exact upsertScore_pairwise _ _ ih1
    · rw [hrun, persistPass_flags, ih2, allFlagRows_concat, List.append_assoc]
    · intro et eid qq hq
      rw [lastPassFor_concat] at hq
      by_cases hk : keyMatch et eid q.2 = true
      · rw [if_pos hk] at hq
        have hqq : q = qq := by simpa using hq
        subst hqq
        have hket : q.2.entity_type = et ∧ q.2.entity_id = eid := by
          simpa [keyMatch] using hk
        constructor
        · intro s hs hset hseid
          rw [hrun, persistPass_scores] at hs
          have hkey : sameKey s q.2 := ⟨by rw [hset, hket.1], by rw [hseid, hket.2]⟩
          exact upsertScore_payload _ _ _ hs hkey
        · rcases upsertScore_exists_key (runPasses d ps).risk_scores q.2 with ⟨s, hs, hkey⟩
          refine ⟨s, ?_, by rw [hkey.1, hket.1], by rw [hkey.2, hket.2]⟩
          rw [hrun, persistPass_scores]
          exact hs
      · rw [if_neg hk] at hq
        have h3 := ih3 et eid qq hq
        constructor
        · intro s hs hset hseid
          rw [hrun, persistPass_scores] at hs
          have hnkey : ¬ sameKey s q.2 := by
            intro hkey
            apply hk
            have h1 : q.2.entity_type = et := by rw [← hkey.1, hset]
            have h2 : q.2.entity_id = eid := by rw [← hkey.2, hseid]
            simp [keyMatch, h1, h2]
          exact h3.1 s (upsertScore_mem_of_not_key _ _ _ hs hnkey) hset hseid
        · rw [hrun, persistPass_scores]
          exact upsertScore_exists_mono _ q.2 et eid h3.2

/-- Witness for C7: two recomputations of lot 1 leave a score table with
at most one row per key. -/
theorem C7_flag_insert_and_score_upsert_witness :
    atMostOnePerKey (runPasses ⟨[], []⟩ exPasses).risk_scores :=
  (C7_flag_insert_and_score_upsert ⟨[], []⟩ exPasses (by simp [atMostOnePerKey])).1

/-- C8 counterexample: on a tender-row pair differing in every column,
the incremental conflict merge coincides with the backfill conflict
merge — for `TrdBuy` (and likewise `Lot` and `Contract`) the
incremental conflict-update column set equals backfill's rather than
being strictly narrower, while backfill does genuinely overwrite
(witnessed by `total_sum`). -/
theorem C8_counterexample :
    incMergeTrdBuy exTrdBuyOld exTrdBuyNew = bfMergeTrdBuy exTrdBuyOld exTrdBuyNew ∧
    (bfMergeTrdBuy exTrdBuyOld exTrdBuyNew).total_sum = exTrdBuyNew.total_sum ∧
    exTrdBuyNew.total_sum ≠ exTrdBuyOld.total_sum := by
  refine ⟨rfl, rfl, ?_⟩
  norm_num [exTrdBuyOld, exTrdBuyNew]

/-- C8 amended: for every entity type handled by both orchestrators the
incremental conflict-update column set is a subset of backfill's —
identical for `TrdBuy`, `Lot` and `Contract`, strictly narrower only
for `Subject` (backfill additionally overwrites `crdate`,
`mark_resident`, `email`, `phone`) — and identity columns (`id`, the
BIN/IIN identities, `org_bin`, `system_id`) are never overwritten by
either conflict rule. -/
theorem C8_conflict_update_columns :
    (∀ old excluded : TrdBuyRec,
      incMergeTrdBuy old excluded = bfMergeTrdBuy old excluded ∧
      (incMergeTrdBuy old excluded).id = old.id ∧
      (incMergeTrdBuy old excluded).org_bin = old.org_bin ∧
      (incMergeTrdBuy old excluded).system_id = old.system_id) ∧
    (∀ old excluded : LotRec,
      incMergeLot old excluded = bfMergeLot old excluded ∧
      (incMergeLot old excluded).id = old.id ∧
      (incMergeLot old excluded).customer_bin = old.customer_bin ∧
      (incMergeLot old excluded).system_id = old.system_id) ∧
    (∀ old excluded : ContractRec,
      incMergeContract old excluded = bfMergeContract old excluded ∧
      (incMergeContract old excluded).id = old.id ∧
      (incMergeContract old excluded).customer_bin = old.customer_bin ∧
      (incMergeContract old excluded).supplier_biin = old.supplier_biin ∧
      (incMergeContract old excluded).system_id = old.system_id) ∧
    (∀ old excluded : SubjectRec,
      (incMergeSubject old excluded).name_ru = excluded.name_ru ∧
      (incMergeSubject old excluded).regdate = excluded.regdate ∧
      (incMergeSubject old excluded).mark_small_employer = excluded.mark_small_employer ∧
      (incMergeSubject old excluded).last_update_at = excluded.last_update_at ∧
      (incMergeSubject old excluded).crdate = old.crdate ∧
      (incMergeSubject old excluded).mark_resident = old.mark_resident ∧
      (incMergeSubject old excluded).email = old.email ∧
      (incMergeSubject old excluded).phone = old.phone ∧
      (bfMergeSubject old excluded).crdate = excluded.crdate ∧
      (bfMergeSubject old excluded).mark_resident = excluded.mark_resident ∧
      (bfMergeSubject old excluded).email = excluded.email ∧
      (bfMergeSubject old excluded).phone = excluded.phone ∧
      (incMergeSubject old excluded).id = old.id ∧
      (bfMergeSubject old excluded).id = old.id ∧
      (incMergeSubject old excluded).bin = old.bin ∧
      (bfMergeSubject old excluded).bin = old.bin ∧
      (incMergeSubject old excluded).iin = old.iin ∧
      (bfMergeSubject old excluded).iin = old.iin ∧
      (incMergeSubject old excluded).system_id = old.system_id ∧
      (bfMergeSubject old excluded).system_id = old.system_id) := by
  refine ⟨?_, ?_, ?_, ?_⟩
  · intro old excluded
    exact ⟨rfl, rfl, rfl, rfl⟩
  · intro old excluded
    exact ⟨rfl, rfl, rfl, rfl⟩
  · intro old excluded
    exact ⟨rfl, rfl, rfl, rfl, rfl⟩
  · intro old excluded
    exact ⟨rfl, rfl, rfl, rfl, rfl, rfl, rfl, rfl, rfl, rfl,
      rfl, rfl, rfl, rfl, rfl, rfl, rfl, rfl, rfl, rfl⟩

theorem commitStep_committed (date_from date_to : ℚ) (s : BFState) (p : Page) :
    (commitStep date_from date_to s p).committed =
      s.committed ++ pageRows date_from date_to p := by
  unfold commitStep
  split
  · rename_i h
    simp [h]
  · rfl

theorem commitStep_cursor (date_from date_to : ℚ) (s : BFState) (p : Page) :
    (commitStep date_from date_to s p).cursor = s.cursor := by
  unfold commitStep
  split
  · rfl
  · rfl

theorem lastSaved_cons (c : Option String) (p : Page) (l : List Page) :
    lastSaved c (p :: l) = lastSaved (cursorStep c p) l := rfl

/-- C9: at every failure boundary of the backfill page loop — before a
page's commit or between its commit and its checkpoint — the stored
cursor is either the run's initial cursor or a non-empty next cursor
returned by a page whose rows are already fully committed; the cursor
is therefore never persisted ahead of the last committed page and an
empty or absent next cursor is never persisted. -/
theorem C9_commit_then_checkpoint (date_from date_to : ℚ) (ps : List Page)
    (s0 s1 : BFState) (h : s1 ∈ allStates date_from date_to s0 ps) :
    checkpointSound date_from date_to ps s0 s1 := by
  induction ps generalizing s0 with
  | nil =>
    have hs : s1 = s0 := by simpa [allStates] using h
    subst hs
    exact ⟨0, by simp, by simp [lastSaved], ⟨[], by simp [flatRows], Or.inl rfl⟩, Or.inl rfl⟩
  | cons p ps ih =>
    simp only [allStates, List.mem_cons] at h
    rcases h with h | h | h
    · subst h
      exact ⟨0, by simp, by simp [lastSaved], ⟨[], by simp [flatRows], Or.inl rfl⟩, Or.inl rfl⟩
    · subst h
      refine ⟨0, by simp, ?_, ⟨pageRows date_from date_to p, ?_, ?_⟩, ?_⟩
      · rw [List.take_zero]
        show _ = lastSaved s0.cursor []
        exact commitStep_cursor _ _ _ _
      · rw [List.take_zero]
        show (commitStep date_from date_to s0 p).committed =
          s0.committed ++ flatRows date_from date_to [] ++ pageRows date_from date_to p
        rw [commitStep_committed]
        simp [flatRows]
      · right
        exact ⟨p, ps, by simp, rfl⟩
      · left
        exact commitStep_cursor _ _ _ _
    · have ih' := ih (saveStep (commitStep date_from date_to s0 p) p) h
      obtain ⟨k, hk, hcur, ⟨extra, hcom, hextra⟩, hjust⟩ := ih'
      have hsc : (saveStep (commitStep date_from date_to s0 p) p).cursor =
          cursorStep s0.cursor p := by
        show cursorStep (commitStep date_from date_to s0 p).cursor p = _
        rw [commitStep_cursor]
      have hscom : (saveStep (commitStep date_from date_to s0 p) p).committed =
          s0.committed ++ pageRows date_from date_to p := by
        show (commitStep date_from date_to s0 p).committed = _
        exact commitStep_committed _ _ _ _
      refine ⟨k + 1, by simpa using Nat.succ_le_succ hk, ?_, ⟨extra, ?_, ?_⟩, ?_⟩
      · rw [List.take_succ_cons, lastSaved_cons, hcur, hsc]
      · rw [List.take_succ_cons]
        show s1.committed =
          s0.committed ++ flatRows date_from date_to (p :: ps.take k) ++ extra
        rw [hcom, hscom]
        simp [flatRows, List.append_assoc]
      · rcases hextra with he | ⟨pp, rest, hdrop, he⟩
        · exact Or.inl he
        · right
          refine ⟨pp, rest, ?_, he⟩
          rw [List.drop_succ_cons]
          exact hdrop
      · rcases hjust with hj | ⟨pp, hpp, hnext, hne⟩
        · rw [hsc] at hj
          cases hnc : p.next_cursor with
          | none =>
            left
            rw [hj]
            unfold cursorStep
            rw [hnc]
          | some cc =>
            by_cases hcc : cc = ""
            · left
              rw [hj]
              unfold cursorStep
              rw [hnc]
              simp [hcc]
            · right
              refine ⟨p, ?_, ?_, ?_⟩
              · rw [List.take_succ_cons]
                exact List.mem_cons_self _ _
              · rw [hj]
                unfold cursorStep
                rw [hnc]
                simp [hcc]
              · rw [hj]
                unfold cursorStep
                rw [hnc]
                simp [hcc]
        · right
          refine ⟨pp, ?_, hnext, hne⟩
          rw [List.take_succ_cons]
          exact List.mem_cons_of_mem _ hpp

/-- Witness for C9: the state after a one-page run (commit of the page's
single row, then checkpoint of cursor `c2`) is sound. -/
theorem C9_commit_then_checkpoint_witness :
    checkpointSound 0 1 [exPage] ⟨[], none⟩
      (saveStep (commitStep 0 1 ⟨[], none⟩ exPage) exPage) := by
  apply C9_commit_then_checkpoint 0 1 [exPage] ⟨[], none⟩
  simp only [allStates]
  exact List.mem_cons_of_mem _ (List.mem_cons_of_mem _ (List.mem_cons_self _ _))

/-- C10: `check_addendum_value_increase` never divides by zero — when
the contract row is absent, its `root_id` is unset (falsy), the root row
is absent, or either sum is null or zero, it returns early with no
trigger, a null value and empty evidence; the percentage-increase
division is reached only with a nonzero root sum. -/
theorem C10_no_division_by_zero (db : Store) (contract_id : ℤ) :
    (db.contracts.find? (fun c => decide (c.id = contract_id)) = none →
      check_addendum_value_increase db contract_id = ⟨false, none, []⟩) ∧
    (∀ c, db.contracts.find? (fun c0 => decide (c0.id = contract_id)) = some c →
      (c.root_id = none ∨ c.root_id = some 0) →
      check_addendum_value_increase db contract_id = ⟨false, none, []⟩) ∧
    (∀ c rid, db.contracts.find? (fun c0 => decide (c0.id = contract_id)) = some c →
      c.root_id = some rid → rid ≠ 0 →
      db.contracts.find? (fun c0 => decide (c0.id = rid)) = none →
      check_addendum_value_increase db contract_id = ⟨false, none, []⟩) ∧
    (∀ c rid root, db.contracts.find? (fun c0 => decide (c0.id = contract_id)) = some c →
      c.root_id = some rid → rid ≠ 0 →
      db.contracts.find? (fun c0 => decide (c0.id = rid)) = some root →
      (root.contract_sum_wnds = none ∨ root.contract_sum_wnds = some 0 ∨
        c.contract_sum_wnds = none ∨ c.contract_sum_wnds = some 0) →
      check_addendum_value_increase db contract_id = ⟨false, none, []⟩) ∧
    (∀ c rid root a b, db.contracts.find? (fun c0 => decide (c0.id = contract_id)) = some c →
      c.root_id = some rid → rid ≠ 0 →
      db.contracts.find? (fun c0 => decide (c0.id = rid)) = some root →
      root.contract_sum_wnds = some a → a ≠ 0 →
      c.contract_sum_wnds = some b → b ≠ 0 →
      check_addendum_value_increase db contract_id =
        ⟨decide (1/5 < (b - a) / a), some (pyRound1 ((b - a) / a * 100)),
         [("root_contract_id", .i rid), ("original_sum", .q a), ("current_sum", .q b),
          ("increase_pct", .q (pyRound1 ((b - a) / a * 100))), ("threshold_pct", .i 20)]⟩) := by
  refine ⟨?_, ?_, ?_, ?_, ?_⟩
  · intro hfind
    unfold check_addendum_value_increase
    rw [hfind]
  · intro c hfind hroot
    unfold check_addendum_value_increase
    rw [hfind]
    dsimp only
    rcases hroot with h | h
    · rw [h]
    · rw [h]
      simp
  · intro c rid hfind hroot hrid hrf
    unfold check_addendum_value_increase
    rw [hfind]
    dsimp only
    rw [hroot]
    dsimp only
    rw [if_neg hrid, hrf]
  · intro c rid root hfind hroot hrid hrf hsum
    unfold check_addendum_value_increase
    rw [hfind]
    dsimp only
    rw [hroot]
    dsimp only
    rw [if_neg hrid, hrf]
    dsimp only
    rcases hsum with h | h | h | h
    · rw [h]
    · rw [h]
      cases hc : c.contract_sum_wnds with
      | none => rfl
      | some b => simp
    · rw [h]
      cases hr : root.contract_sum_wnds with
      | none => rfl
      | some a => rfl
    · rw [h]
      cases hr : root.contract_sum_wnds with
      | none => rfl
      | some a => simp
  · intro c rid root a b hfind hroot hrid hrf hra ha hcb hb
    unfold check_addendum_value_increase
    rw [hfind]
    dsimp only
    rw [hroot]
    dsimp only
    rw [if_neg hrid, hrf]
    dsimp only
    rw [hra, hcb]
    dsimp only
    rw [if_neg (show ¬ (a = 0 ∨ b = 0) by push_neg; exact ⟨ha, hb⟩)]

/-- Witness for C10 on the spec's worked example (root sum 100,
amendment sum 130): the division is evaluated with the nonzero root sum
and reports a 30% increase. -/
theorem C10_no_division_by_zero_witness :
    (check_addendum_value_increase exC10 2).flag = true ∧
    (check_addendum_value_increase exC10 2).value = some 30 := by
  have h := (C10_no_division_by_zero exC10 2).2.2.2.2 exC10amend 1 exC10root 100 130
    (by decide) (by decide) (by decide) (by decide) (by decide) (by norm_num)
    (by decide) (by norm_num)
  constructor
  · rw [h]
    show decide ((1 : ℚ)/5 < ((130 : ℚ) - 100) / 100) = true
    rw [decide_eq_true_eq]
    norm_num
  · rw [h]
    show some (pyRound1 (((130 : ℚ) - 100) / 100 * 100)) = some 30
    norm_num [pyRound1, pyRoundInt]

-- END
